import Mathlib

/-! Carla engine core: `CarlaEngine.hpp`, `CarlaHost.h` and `carla_native.hpp`

Shallow embedding of the value types declared in
`source/backend/CarlaEngine.hpp` (events, options, time information, ports),
of the host API types of `source/backend/CarlaHost.h` and of the native plugin
class of `source/backend/carla_native.hpp`, followed by theorems about them.

Conventions
* C enumerations are inductive types together with a `toNat` function giving
  the enumerator values written in the header.
* Unsigned machine integers are `Nat`; a value passed through a narrower
  parameter type is reduced modulo `2 ^ w` explicitly.
* `float` and `double` are IEEE-754 bit patterns (`CFloat`, `CDouble`) with the
  comparison operators of the C++ language defined on the patterns.
* A `const char*` is an `Option String` (`none` is `nullptr`).
-/

namespace CarlaBackend

/-! ## IEEE-754 values -/

/-- A C `float`: an IEEE-754 binary32 value, held as its bit pattern. -/
structure CFloat where
  bits : Nat
deriving DecidableEq, Repr

/-- A C `double`: an IEEE-754 binary64 value, held as its bit pattern. -/
structure CDouble where
  bits : Nat
deriving DecidableEq, Repr

namespace CFloat

/-- Biased exponent field (8 bits). -/
def exponent (x : CFloat) : Nat := x.bits / 2 ^ 23 % 2 ^ 8

/-- Fraction field (23 bits). -/
def mantissa (x : CFloat) : Nat := x.bits % 2 ^ 23

/-- Sign bit. -/
def sign (x : CFloat) : Nat := x.bits / 2 ^ 31 % 2

/-- Not-a-number: all exponent bits set, fraction non-zero. -/
def isNaN (x : CFloat) : Bool := x.exponent == 255 && x.mantissa != 0

/-- Positive or negative zero. -/
def isZero (x : CFloat) : Bool := x.exponent == 0 && x.mantissa == 0

/-- The C++ `==` on `float`: false when either side is NaN, the two zeros are equal. -/
def eq (x y : CFloat) : Bool :=
  !x.isNaN && !y.isNaN &&
    ((x.isZero && y.isZero) ||
      (x.sign == y.sign && x.exponent == y.exponent && x.mantissa == y.mantissa))

/-- The C++ `!=` on `float`. -/
def ne (x y : CFloat) : Bool := !x.eq y

/-- The literal `0.0f`. -/
def zero : CFloat := ⟨0⟩

/-- The literal `1.0f`. -/
def one : CFloat := ⟨0x3F800000⟩

end CFloat

namespace CDouble

/-- Biased exponent field (11 bits). -/
def exponent (x : CDouble) : Nat := x.bits / 2 ^ 52 % 2 ^ 11

/-- Fraction field (52 bits). -/
def mantissa (x : CDouble) : Nat := x.bits % 2 ^ 52

/-- Sign bit. -/
def sign (x : CDouble) : Nat := x.bits / 2 ^ 63 % 2

/-- Not-a-number: all exponent bits set, fraction non-zero. -/
def isNaN (x : CDouble) : Bool := x.exponent == 2047 && x.mantissa != 0

/-- Positive or negative zero. -/
def isZero (x : CDouble) : Bool := x.exponent == 0 && x.mantissa == 0

/-- The C++ `==` on `double`: false when either side is NaN, the two zeros are equal. -/
def eq (x y : CDouble) : Bool :=
  !x.isNaN && !y.isNaN &&
    ((x.isZero && y.isZero) ||
      (x.sign == y.sign && x.exponent == y.exponent && x.mantissa == y.mantissa))

/-- The C++ `!=` on `double`. -/
def ne (x y : CDouble) : Bool := !x.eq y

/-- The literal `0.0`. -/
def zero : CDouble := ⟨0⟩

/-- The value `120.0`. -/
def bpm120 : CDouble := ⟨0x405E000000000000⟩

/-- The value `140.0`. -/
def bpm140 : CDouble := ⟨0x4061800000000000⟩

end CDouble

/-! ## Enumerations of `CarlaEngine.hpp` -/

/-- The type of an engine port (`enum EnginePortType`). -/
inductive EnginePortType
  | kEnginePortTypeNull
  | kEnginePortTypeAudio
  | kEnginePortTypeCV
  | kEnginePortTypeEvent
deriving DecidableEq, Repr

/-- Enumerator values of `EnginePortType`. -/
def EnginePortType.toNat : EnginePortType → Nat
  | .kEnginePortTypeNull => 0
  | .kEnginePortTypeAudio => 1
  | .kEnginePortTypeCV => 2
  | .kEnginePortTypeEvent => 3

/-- The type of an engine event (`enum EngineEventType`). -/
inductive EngineEventType
  | kEngineEventTypeNull
  | kEngineEventTypeControl
  | kEngineEventTypeMidi
deriving DecidableEq, Repr

/-- Enumerator values of `EngineEventType`. -/
def EngineEventType.toNat : EngineEventType → Nat
  | .kEngineEventTypeNull => 0
  | .kEngineEventTypeControl => 1
  | .kEngineEventTypeMidi => 2

/-- The type of an engine control event (`enum EngineControlEventType`). -/
inductive EngineControlEventType
  | kEngineControlEventTypeNull
  | kEngineControlEventTypeParameter
  | kEngineControlEventTypeMidiBank
  | kEngineControlEventTypeMidiProgram
  | kEngineControlEventTypeAllSoundOff
  | kEngineControlEventTypeAllNotesOff
deriving DecidableEq, Repr

/-- Enumerator values of `EngineControlEventType`. -/
def EngineControlEventType.toNat : EngineControlEventType → Nat
  | .kEngineControlEventTypeNull => 0
  | .kEngineControlEventTypeParameter => 1
  | .kEngineControlEventTypeMidiBank => 2
  | .kEngineControlEventTypeMidiProgram => 3
  | .kEngineControlEventTypeAllSoundOff => 4
  | .kEngineControlEventTypeAllNotesOff => 5

/-- The five kinds of control event a plugin can receive: every enumerator
of `EngineControlEventType` except the null one. -/
def EngineControlEventType.isControlKind : EngineControlEventType → Bool
  | .kEngineControlEventTypeNull => false
  | _ => true

/-! ## Events -/

/-- Engine control event (`struct EngineControlEvent`). -/
structure EngineControlEvent where
  type : EngineControlEventType
  param : Nat
  value : CFloat
deriving DecidableEq, Repr

/-- `EngineControlEvent::clear()`. -/
def EngineControlEvent.clear (_self : EngineControlEvent) : EngineControlEvent :=
  { type := .kEngineControlEventTypeNull
    param := 0
    value := CFloat.zero }

/-- Engine MIDI event (`struct EngineMidiEvent`); `data0 .. data3` are `data[4]`. -/
structure EngineMidiEvent where
  port : Nat
  data0 : Nat
  data1 : Nat
  data2 : Nat
  data3 : Nat
  size : Nat
deriving DecidableEq, Repr

/-- `EngineMidiEvent::clear()`. -/
def EngineMidiEvent.clear (_self : EngineMidiEvent) : EngineMidiEvent :=
  { port := 0
    data0 := 0
    data1 := 0
    data2 := 0
    data3 := 0
    size := 0 }

/-- The anonymous union of `EngineEvent`: the storage read either as a control
event or as a MIDI event. -/
inductive EngineEventData
  | ctrl (c : EngineControlEvent)
  | midi (m : EngineMidiEvent)
deriving DecidableEq, Repr

/-- Engine event (`struct EngineEvent`). -/
structure EngineEvent where
  type : EngineEventType
  time : Nat
  channel : Nat
  data : EngineEventData
deriving DecidableEq, Repr

/-- `EngineEvent::clear()`: the union is not touched. -/
def EngineEvent.clear (self : EngineEvent) : EngineEvent :=
  { self with
    type := .kEngineEventTypeNull
    time := 0
    channel := 0 }

/-! ## Engine options -/

/-- Modelled from the spec: `EngineProcessMode` is declared in `CarlaBackend.h`,
which is not among the sources; the enumerators are the process modes listed
for the `process_mode` option (single-client, multiple-clients,
continuous-rack, patchbay, bridge). -/
inductive EngineProcessMode
  | ENGINE_PROCESS_MODE_SINGLE_CLIENT
  | ENGINE_PROCESS_MODE_MULTIPLE_CLIENTS
  | ENGINE_PROCESS_MODE_CONTINUOUS_RACK
  | ENGINE_PROCESS_MODE_PATCHBAY
  | ENGINE_PROCESS_MODE_BRIDGE
deriving DecidableEq, Repr

/-- Modelled from the spec: `EngineTransportMode` is declared in
`CarlaBackend.h`, which is not among the sources; the enumerators are the
transport modes listed for the `transport_mode` option (internal, jack). -/
inductive EngineTransportMode
  | ENGINE_TRANSPORT_MODE_INTERNAL
  | ENGINE_TRANSPORT_MODE_JACK
deriving DecidableEq, Repr

/-- Modelled from the spec: the constant `MAX_DEFAULT_PARAMETERS` is defined in
`CarlaBackend.h`, which is not among the sources; the options list gives
`max_parameters` the default 200. -/
def MAX_DEFAULT_PARAMETERS : Nat := 200

/-- Engine options (`struct EngineOptions`). -/
structure EngineOptions where
  processMode : EngineProcessMode
  transportMode : EngineTransportMode
  forceStereo : Bool
  preferPluginBridges : Bool
  preferUiBridges : Bool
  uisAlwaysOnTop : Bool
  maxParameters : Nat
  uiBridgesTimeout : Nat
  audioNumPeriods : Nat
  audioBufferSize : Nat
  audioSampleRate : Nat
  audioDevice : Option String
  binaryDir : Option String
  resourceDir : Option String
deriving DecidableEq, Repr

/-- The constructor `EngineOptions::EngineOptions()`. The argument says whether
the preprocessor symbol `CARLA_OS_LINUX` is defined, which selects the first two
member initialisers. -/
def EngineOptions.new (carlaOsLinux : Bool) : EngineOptions :=
  { processMode :=
      if carlaOsLinux then .ENGINE_PROCESS_MODE_MULTIPLE_CLIENTS
      else .ENGINE_PROCESS_MODE_CONTINUOUS_RACK
    transportMode :=
      if carlaOsLinux then .ENGINE_TRANSPORT_MODE_JACK
      else .ENGINE_TRANSPORT_MODE_INTERNAL
    forceStereo := false
    preferPluginBridges := false
    preferUiBridges := true
    uisAlwaysOnTop := true
    maxParameters := MAX_DEFAULT_PARAMETERS
    uiBridgesTimeout := 4000
    audioNumPeriods := 2
    audioBufferSize := 512
    audioSampleRate := 44100
    audioDevice := none
    binaryDir := none
    resourceDir := none }

/-! ## Time information -/

/-- Engine BBT time information (`struct EngineTimeInfoBBT`). The three
`int32_t` fields are `Int`. -/
structure EngineTimeInfoBBT where
  bar : Int
  beat : Int
  tick : Int
  barStartTick : CDouble
  beatsPerBar : CFloat
  beatType : CFloat
  ticksPerBeat : CDouble
  beatsPerMinute : CDouble
deriving DecidableEq, Repr

/-- The constructor `EngineTimeInfoBBT::EngineTimeInfoBBT()`. -/
def EngineTimeInfoBBT.new : EngineTimeInfoBBT :=
  { bar := 0
    beat := 0
    tick := 0
    barStartTick := CDouble.zero
    beatsPerBar := CFloat.zero
    beatType := CFloat.zero
    ticksPerBeat := CDouble.zero
    beatsPerMinute := CDouble.zero }

/-- Engine time information (`struct EngineTimeInfo`). -/
structure EngineTimeInfo where
  playing : Bool
  frame : Nat
  usecs : Nat
  valid : Nat
  bbt : EngineTimeInfoBBT
deriving DecidableEq, Repr

namespace EngineTimeInfo

/-- The constant `EngineTimeInfo::ValidBBT`. -/
def ValidBBT : Nat := 0x1

/-- `EngineTimeInfo::clear()`: the `bbt` member is not touched. -/
def clear (self : EngineTimeInfo) : EngineTimeInfo :=
  { self with
    playing := false
    frame := 0
    usecs := 0
    valid := 0x0 }

/-- The constructor `EngineTimeInfo::EngineTimeInfo()`: `bbt` is
default-constructed, then the body calls `clear()`. The first four members have
no initialiser; their indeterminate values before `clear()` are the arguments. -/
def new (playing0 : Bool) (frame0 usecs0 valid0 : Nat) : EngineTimeInfo :=
  clear
    { playing := playing0
      frame := frame0
      usecs := usecs0
      valid := valid0
      bbt := EngineTimeInfoBBT.new }

/-- `EngineTimeInfo::operator==` ("quick operator, doesn't check all values"). -/
def eq (self timeInfo : EngineTimeInfo) : Bool :=
  if timeInfo.playing != self.playing || timeInfo.frame != self.frame then
    false
  else if timeInfo.valid != self.valid then
    false
  else if timeInfo.bbt.beatsPerMinute.ne self.bbt.beatsPerMinute then
    false
  else
    true

/-- `EngineTimeInfo::operator!=`. -/
def ne (self timeInfo : EngineTimeInfo) : Bool :=
  !self.eq timeInfo

/-- Whether the `ValidBBT` bit of the `valid` mask is set (`valid & ValidBBT`). -/
def hasValidBBT (self : EngineTimeInfo) : Bool :=
  self.valid &&& ValidBBT != 0

end EngineTimeInfo

/-! ## Transport -/

/-- Conversion of an unsigned value to a `uint32_t` parameter. -/
def toUInt32 (n : Nat) : Nat := n % 2 ^ 32

/-- Modelled from the spec: the body of `CarlaEngine::transportPlay` is not
among the sources (the header only declares it); the transport section says
`play()` moves to playing. The transport is the engine time information. -/
def transportPlay (timeInfo : EngineTimeInfo) : EngineTimeInfo :=
  { timeInfo with playing := true }

/-- Modelled from the spec: the body of `CarlaEngine::transportPause` is not
among the sources (the header only declares it); the transport section says
`pause()` moves to stopped. -/
def transportPause (timeInfo : EngineTimeInfo) : EngineTimeInfo :=
  { timeInfo with playing := false }

/-- Modelled from the spec: the body of `CarlaEngine::transportRelocate` is not
among the sources; the header declares it as
`virtual void transportRelocate(const uint32_t frame)`, and the transport
section says `relocate(f)` sets `frame=f` and leaves the play state unchanged.
The argument is the value the caller passes; it reaches the body through the
`uint32_t` parameter. -/
def transportRelocate (timeInfo : EngineTimeInfo) (frame : Nat) : EngineTimeInfo :=
  let frame32 := toUInt32 frame
  { timeInfo with frame := frame32 }

/-- Modelled from the spec: the body of `carla_transport_relocate` is not among
the sources; `CarlaHost.h` declares it as
`void carla_transport_relocate(uint32_t frames)` and documents it as relocating
the engine transport, so it hands its `uint32_t` argument to
`transportRelocate`. -/
def carla_transport_relocate (timeInfo : EngineTimeInfo) (frames : Nat) : EngineTimeInfo :=
  let frames32 := toUInt32 frames
  transportRelocate timeInfo frames32

/-- The largest value the `uint64_t` member `EngineTimeInfo::frame` can hold is
`2 ^ 64 - 1`. -/
def isUInt64 (n : Nat) : Bool := n < 2 ^ 64

/-! ## Ports -/

/-- Carla Engine port, the abstract base class `CarlaEnginePort`. Its members
are the reference `fEngine` (left out: no operation below reads it) and
`const bool fIsInput`. -/
structure CarlaEnginePort where
  fIsInput : Bool
deriving DecidableEq, Repr

/-- Modelled from the spec: the body of the constructor
`CarlaEnginePort(const CarlaEngine& engine, const bool isInput)` is not among
the sources; its documentation says the parameter `isInput` defines whether
this is an input port and that it is constant for the lifetime of the port. -/
def CarlaEnginePort.new (isInput : Bool) : CarlaEnginePort :=
  { fIsInput := isInput }

/-- `CarlaEnginePort::isInput()`. -/
def CarlaEnginePort.isInput (self : CarlaEnginePort) : Bool :=
  self.fIsInput

/-- Carla Engine audio port (`class CarlaEngineAudioPort`); `fBuffer` holds the
samples the pointer member `float* fBuffer` addresses. -/
structure CarlaEngineAudioPort extends CarlaEnginePort where
  fBuffer : List CFloat
deriving DecidableEq, Repr

namespace CarlaEngineAudioPort

/-- Modelled from the spec: the body of the constructor
`CarlaEngineAudioPort(const CarlaEngine& engine, const bool isInput)` is not
among the sources. An audio port owns a float buffer; the samples that buffer
holds once the port is set up are the second argument. -/
def new (isInput : Bool) (buffer : List CFloat) : CarlaEngineAudioPort :=
  { toCarlaEnginePort := CarlaEnginePort.new isInput
    fBuffer := buffer }

/-- `CarlaEngineAudioPort::getType()`. -/
def getType (_self : CarlaEngineAudioPort) : EnginePortType :=
  .kEnginePortTypeAudio

/-- `CarlaEngineAudioPort::initBuffer()`: the body is empty. -/
def initBuffer (self : CarlaEngineAudioPort) : CarlaEngineAudioPort :=
  self

/-- `CarlaEngineAudioPort::getBuffer()`. -/
def getBuffer (self : CarlaEngineAudioPort) : List CFloat :=
  self.fBuffer

end CarlaEngineAudioPort

/-- Carla Engine CV port (`class CarlaEngineCVPort`); `fBuffer` holds the
samples the pointer member `float* fBuffer` addresses. -/
structure CarlaEngineCVPort extends CarlaEnginePort where
  fBuffer : List CFloat
deriving DecidableEq, Repr

namespace CarlaEngineCVPort

/-- Modelled from the spec: the body of the constructor
`CarlaEngineCVPort(const CarlaEngine& engine, const bool isInput)` is not among
the sources. A CV port owns a float buffer; the samples that buffer holds once
the port is set up are the second argument. -/
def new (isInput : Bool) (buffer : List CFloat) : CarlaEngineCVPort :=
  { toCarlaEnginePort := CarlaEnginePort.new isInput
    fBuffer := buffer }

/-- `CarlaEngineCVPort::getType()`. -/
def getType (_self : CarlaEngineCVPort) : EnginePortType :=
  .kEnginePortTypeCV

/-- Modelled from the spec: the body of `CarlaEngineCVPort::initBuffer` is not
among the sources (the header only declares it); `init_buffer()` zeroes
audio/CV buffers. -/
def initBuffer (self : CarlaEngineCVPort) : CarlaEngineCVPort :=
  { self with fBuffer := self.fBuffer.map (fun _ => CFloat.zero) }

/-- `CarlaEngineCVPort::getBuffer()`. -/
def getBuffer (self : CarlaEngineCVPort) : List CFloat :=
  self.fBuffer

end CarlaEngineCVPort

/-- Carla Engine event port (`class CarlaEngineEventPort`). `fBuffer` holds the
events stored through the pointer member `EngineEvent* fBuffer`, oldest first.

Modelled from the spec: the allocation of the event array is not among the
sources; an event port owns a capped event array (default 512 events) plus a
count. `fCapacity` is that cap and the count is the length of `fBuffer`. -/
structure CarlaEngineEventPort extends CarlaEnginePort where
  fBuffer : List EngineEvent
  fCapacity : Nat
deriving DecidableEq, Repr

/-- Modelled from the spec: the default cap of an event port is 512 events. -/
def kDefaultEventCapacity : Nat := 512

namespace CarlaEngineEventPort

/-- Modelled from the spec: the body of the constructor
`CarlaEngineEventPort(const CarlaEngine& engine, const bool isInput)` is not
among the sources. The port starts with no event and the default cap. -/
def new (isInput : Bool) : CarlaEngineEventPort :=
  { toCarlaEnginePort := CarlaEnginePort.new isInput
    fBuffer := []
    fCapacity := kDefaultEventCapacity }

/-- `CarlaEngineEventPort::getType()`. -/
def getType (_self : CarlaEngineEventPort) : EnginePortType :=
  .kEnginePortTypeEvent

/-- Modelled from the spec: the body of `CarlaEngineEventPort::initBuffer` is
not among the sources (the header only declares it); `init_buffer()` empties
event buffers. -/
def initBuffer (self : CarlaEngineEventPort) : CarlaEngineEventPort :=
  { self with fBuffer := [] }

/-- Modelled from the spec: the body of `CarlaEngineEventPort::getEventCount`
is not among the sources; it is the number of events present in the buffer. -/
def getEventCount (self : CarlaEngineEventPort) : Nat :=
  self.fBuffer.length

/-- Modelled from the spec: the body of `CarlaEngineEventPort::getEvent` is not
among the sources; it is the event at `index`, and `none` when there is no
event at that index. -/
def getEvent (self : CarlaEngineEventPort) (index : Nat) : Option EngineEvent :=
  self.fBuffer.get? index

/-- Modelled from the spec: the body of the five-argument
`CarlaEngineEventPort::writeControlEvent` is not among the sources (the header
only declares it). The arguments are the same as in the `EngineControlEvent`
struct; a write past capacity drops the event and returns `false` (buffer
full), any other write appends the event and returns `true`. -/
def writeControlEvent (self : CarlaEngineEventPort) (time channel : Nat)
    (type : EngineControlEventType) (param : Nat) (value : CFloat) :
    Bool × CarlaEngineEventPort :=
  if self.fBuffer.length < self.fCapacity then
    let event : EngineEvent :=
      { type := .kEngineEventTypeControl
        time := time
        channel := channel
        data := .ctrl { type := type, param := param, value := value } }
    (true, { self with fBuffer := self.fBuffer ++ [event] })
  else
    (false, self)

/-- Modelled from the spec: the body of the five-argument
`CarlaEngineEventPort::writeMidiEvent` is not among the sources (the header
only declares it). The arguments are the same as in the `EngineMidiEvent`
struct, `data` being the bytes the pointer addresses; a write past capacity
drops the event and returns `false` (buffer full), any other write appends the
event and returns `true`. -/
def writeMidiEvent (self : CarlaEngineEventPort) (time channel port : Nat)
    (data : List Nat) (size : Nat) : Bool × CarlaEngineEventPort :=
  if self.fBuffer.length < self.fCapacity then
    let byte (i : Nat) : Nat := if i < size then data.getD i 0 else 0
    let event : EngineEvent :=
      { type := .kEngineEventTypeMidi
        time := time
        channel := channel
        data := .midi
          { port := port
            data0 := byte 0
            data1 := byte 1
            data2 := byte 2
            data3 := byte 3
            size := size } }
    (true, { self with fBuffer := self.fBuffer ++ [event] })
  else
    (false, self)

end CarlaEngineEventPort

/-- A port of any of the three concrete classes, seen through the base class. -/
inductive EnginePort
  | audio (p : CarlaEngineAudioPort)
  | cv (p : CarlaEngineCVPort)
  | event (p : CarlaEngineEventPort)
deriving DecidableEq, Repr

/-- A call of one of the operations of a port. -/
inductive PortCall
  | initBuffer
  | getBuffer
  | getEventCount
  | getEvent (index : Nat)
  | writeControlEvent (time channel : Nat) (type : EngineControlEventType)
      (param : Nat) (value : CFloat)
  | writeMidiEvent (time channel port : Nat) (data : List Nat) (size : Nat)
deriving DecidableEq, Repr

namespace EnginePort

/-- The base-class part of a port. -/
def base : EnginePort → CarlaEnginePort
  | audio p => p.toCarlaEnginePort
  | cv p => p.toCarlaEnginePort
  | event p => p.toCarlaEnginePort

/-- `isInput()` called through the base class. -/
def isInput (self : EnginePort) : Bool :=
  self.base.isInput

/-- The virtual `getType()`. -/
def getType : EnginePort → EnginePortType
  | audio p => p.getType
  | cv p => p.getType
  | event p => p.getType

/-- The port after one call. A call that the class of the port does not
declare is not a call on that port and leaves it as it is. -/
def call : EnginePort → PortCall → EnginePort
  | audio p, .initBuffer => audio p.initBuffer
  | cv p, .initBuffer => cv p.initBuffer
  | event p, .initBuffer => event p.initBuffer
  | event p, .writeControlEvent time channel type param value =>
      event (p.writeControlEvent time channel type param value).2
  | event p, .writeMidiEvent time channel port data size =>
      event (p.writeMidiEvent time channel port data size).2
  | p, _ => p

/-- The port after a sequence of calls, first call first. -/
def run (self : EnginePort) (calls : List PortCall) : EnginePort :=
  calls.foldl call self

end EnginePort

/-! ## Host API (`CarlaHost.h`) -/

/-- File callback opcodes (`enum FileCallbackOpcode`). -/
inductive FileCallbackOpcode
  | FILE_CALLBACK_DEBUG
  | FILE_CALLBACK_OPEN
  | FILE_CALLBACK_SAVE
deriving DecidableEq, Repr

/-- Enumerator values of `FileCallbackOpcode`. -/
def FileCallbackOpcode.toNat : FileCallbackOpcode → Nat
  | .FILE_CALLBACK_DEBUG => 0
  | .FILE_CALLBACK_OPEN => 1
  | .FILE_CALLBACK_SAVE => 2

/-! ## Construction of events -/

/-- The constructor `EngineEvent::EngineEvent()`: the body calls `clear()`. No
member has an initialiser; the indeterminate values the members hold before
`clear()` are the argument. -/
def EngineEvent.new (indeterminate : EngineEvent) : EngineEvent :=
  indeterminate.clear

/-! ## Overloads of the event port writers -/

/-- Modelled from the spec: the macro `MIDI_GET_CHANNEL_FROM_DATA` is defined in
`CarlaMIDI.h`, which is not among the sources. The channel of an event is within
0..15 and is 0 for what is not a MIDI channel message; it is taken from the
first data byte `data[0]`: the low four bits of a channel-message status byte
(`0x80` to `0xEF`), and 0 for any other first byte. -/
def MIDI_GET_CHANNEL_FROM_DATA (data : List Nat) : Nat :=
  let status := data.getD 0 0
  if 0x80 ≤ status ∧ status < 0xF0 then status % 16 else 0

namespace CarlaEngineEventPort

/-- The overload `writeControlEvent(time, channel, const EngineControlEvent& ctrl)`. -/
def writeControlEventCtrl (self : CarlaEngineEventPort) (time channel : Nat)
    (ctrl : EngineControlEvent) : Bool × CarlaEngineEventPort :=
  self.writeControlEvent time channel ctrl.type ctrl.param ctrl.value

/-- The overload `writeMidiEvent(time, data, size)`. -/
def writeMidiEventData (self : CarlaEngineEventPort) (time : Nat)
    (data : List Nat) (size : Nat) : Bool × CarlaEngineEventPort :=
  self.writeMidiEvent time (MIDI_GET_CHANNEL_FROM_DATA data) 0 data size

/-- The overload `writeMidiEvent(time, channel, const EngineMidiEvent& midi)`;
`midi.data` is the array of the four data bytes. -/
def writeMidiEventMidi (self : CarlaEngineEventPort) (time channel : Nat)
    (midi : EngineMidiEvent) : Bool × CarlaEngineEventPort :=
  self.writeMidiEvent time channel midi.port
    [midi.data0, midi.data1, midi.data2, midi.data3] midi.size

end CarlaEngineEventPort

/-! ## Plugin management -/

/-- An address held by a pointer whose target is not read here (`const void*`,
`float**`, `const MidiEvent*`, a handle); `0` is `nullptr`. -/
abbrev Pointer := Nat

/-- Modelled from the spec: `BinaryType` is declared in `CarlaBackend.h`, which
is not among the sources. The sources name one enumerator, `BINARY_NATIVE`; any
other binary type is `other`, carrying its enumerator value. -/
inductive BinaryType
  | BINARY_NATIVE
  | other (value : Nat)
deriving DecidableEq, Repr

/-- Modelled from the spec: `PluginType` is declared in `CarlaBackend.h`, which
is not among the sources. The sources name one enumerator, `PLUGIN_NONE`; any
other plugin type is `other`, carrying its enumerator value. -/
inductive PluginType
  | PLUGIN_NONE
  | other (value : Nat)
deriving DecidableEq, Repr

/-- Modelled from the spec: `PluginCategory` is declared in `CarlaBackend.h`,
which is not among the sources. The sources name one enumerator,
`PLUGIN_CATEGORY_NONE`; any other category is `other`, carrying its enumerator
value. -/
inductive PluginCategory
  | PLUGIN_CATEGORY_NONE
  | other (value : Nat)
deriving DecidableEq, Repr

/-- The six-argument `CarlaEngine::addPlugin(btype, ptype, filename, name,
label, extra)`, as a function of its arguments and of the engine before the
call, giving the returned `bool` and the engine after the call. Its body is not
among the sources, so it is a parameter of what calls it; `σ` is the state of
the engine. -/
abbrev AddPlugin (σ : Type) :=
  BinaryType → PluginType → Option String → Option String → Option String →
    Pointer → σ → Bool × σ

/-- The five-argument overload `CarlaEngine::addPlugin(ptype, filename, name,
label, extra)` ("Add new plugin, using native binary type"), over the
six-argument `addPlugin` of the same engine. -/
def addPluginNative {σ : Type} (addPlugin : AddPlugin σ) (ptype : PluginType)
    (filename name label : Option String) (extra : Pointer) : σ → Bool × σ :=
  addPlugin .BINARY_NATIVE ptype filename name label extra

/-- The arguments of one call of the six-argument `addPlugin`. -/
structure AddPluginCall where
  btype : BinaryType
  ptype : PluginType
  filename : Option String
  name : Option String
  label : Option String
  extra : Pointer
deriving DecidableEq, Repr

/-- A six-argument `addPlugin` that does nothing but record each call it
receives, oldest first, and answers with the given result. -/
def recordingAddPlugin (result : Bool) : AddPlugin (List AddPluginCall) :=
  fun btype ptype filename name label extra calls =>
    (result, calls ++ [{ btype := btype, ptype := ptype, filename := filename,
                         name := name, label := label, extra := extra }])

/-- Information about a loaded plugin (`struct CarlaPluginInfo` of
`CarlaHost.h`); `patchbayClientId` is an `int` and `uniqueId` a `long`. -/
structure CarlaPluginInfo where
  type : PluginType
  category : PluginCategory
  hints : Nat
  optionsAvailable : Nat
  optionsEnabled : Nat
  filename : Option String
  name : Option String
  label : Option String
  maker : Option String
  copyright : Option String
  iconName : Option String
  patchbayClientId : Int
  uniqueId : Int
deriving DecidableEq, Repr

/-- The constructor `_CarlaPluginInfo::_CarlaPluginInfo()`. -/
def CarlaPluginInfo.new : CarlaPluginInfo :=
  { type := .PLUGIN_NONE
    category := .PLUGIN_CATEGORY_NONE
    hints := 0x0
    optionsAvailable := 0x0
    optionsEnabled := 0x0
    filename := none
    name := none
    label := none
    maker := none
    copyright := none
    iconName := none
    patchbayClientId := 0
    uniqueId := 0 }

/-! ## Native plugin API (`carla_native.hpp`) -/

/-- What a call of a member function gives back: the returned value, the state
of the program after the call, and the conditions of the `CARLA_ASSERT`s that
were evaluated during the call, in order. `σ` is the state of everything the
plugin and its host can read or write. -/
structure CallResult (σ α : Type) where
  value : α
  state : σ
  asserts : List Bool

/-- Modelled from the spec: the macro `CARLA_ASSERT` is defined in
`carla_utils.hpp`, which is not among the sources, and the spec does not
describe it. It is taken as a diagnostic: its condition is evaluated and
recorded, and execution continues whatever the condition is (each host-call
wrapper tests `m_host` again right after asserting it). -/
def CARLA_ASSERT (cond : Bool) : List Bool := [cond]

/-- Modelled from the spec: `struct HostDescriptor` is declared in
`carla_native.h`, which is not among the sources. Its members are the handle and
the functions of the host service interface provided back to the plugin
(`get_buffer_size`, `get_sample_rate`, `get_time_info`, `write_midi_event`,
`ui_parameter_changed`, `ui_midi_program_changed`, `ui_custom_data_changed`,
`ui_closed`), each taking the handle first. A function is given by what it
returns and the state it leaves. -/
structure HostDescriptor (σ : Type) where
  handle : Pointer
  get_buffer_size : Pointer → σ → Nat × σ
  get_sample_rate : Pointer → σ → CDouble × σ
  get_time_info : Pointer → σ → Pointer × σ
  write_midi_event : Pointer → Pointer → σ → σ
  ui_parameter_changed : Pointer → Nat → CFloat → σ → σ
  ui_midi_program_changed : Pointer → Nat → Nat → σ → σ
  ui_custom_data_changed : Pointer → Option String → Option String → σ → σ
  ui_closed : Pointer → σ → σ

/-- An object of a class derived from `PluginDescriptorClass`: the member
`m_host` (a pointer, `none` when null) and the virtual member functions as the
dynamic class of the object defines them. -/
structure PluginDescriptorClass (σ : Type) where
  m_host : Option (HostDescriptor σ)
  getParameterCount : σ → CallResult σ Nat
  getParameterInfo : Nat → σ → CallResult σ Pointer
  getParameterValue : Nat → σ → CallResult σ CFloat
  getParameterText : Nat → σ → CallResult σ (Option String)
  getMidiProgramCount : σ → CallResult σ Nat
  getMidiProgramInfo : Nat → σ → CallResult σ Pointer
  setParameterValue : Nat → CFloat → σ → CallResult σ Unit
  setMidiProgram : Nat → Nat → σ → CallResult σ Unit
  setCustomData : Option String → Option String → σ → CallResult σ Unit
  activate : σ → CallResult σ Unit
  deactivate : σ → CallResult σ Unit
  process : Pointer → Pointer → Nat → Nat → Pointer → σ → CallResult σ Unit
  uiShow : Bool → σ → CallResult σ Unit
  uiIdle : σ → CallResult σ Unit
  uiSetParameterValue : Nat → CFloat → σ → CallResult σ Unit
  uiSetMidiProgram : Nat → Nat → σ → CallResult σ Unit
  uiSetCustomData : Option String → Option String → σ → CallResult σ Unit

namespace PluginDescriptorClass

variable {σ : Type}

/-! ### Host calls -/

/-- `PluginDescriptorClass::getHostHandle()`. -/
def getHostHandle (self : PluginDescriptorClass σ) : Option (HostDescriptor σ) :=
  self.m_host

/-- `PluginDescriptorClass::getBufferSize()`. -/
def getBufferSize (self : PluginDescriptorClass σ) (s : σ) : CallResult σ Nat :=
  let asserts := CARLA_ASSERT self.m_host.isSome
  match self.m_host with
  | some host =>
    let r := host.get_buffer_size host.handle s
    { value := r.1, state := r.2, asserts := asserts }
  | none => { value := 0, state := s, asserts := asserts }

/-- `PluginDescriptorClass::getSampleRate()`. -/
def getSampleRate (self : PluginDescriptorClass σ) (s : σ) : CallResult σ CDouble :=
  let asserts := CARLA_ASSERT self.m_host.isSome
  match self.m_host with
  | some host =>
    let r := host.get_sample_rate host.handle s
    { value := r.1, state := r.2, asserts := asserts }
  | none => { value := CDouble.zero, state := s, asserts := asserts }

/-- `PluginDescriptorClass::getTimeInfo()`. -/
def getTimeInfo (self : PluginDescriptorClass σ) (s : σ) : CallResult σ Pointer :=
  let asserts := CARLA_ASSERT self.m_host.isSome
  match self.m_host with
  | some host =>
    let r := host.get_time_info host.handle s
    { value := r.1, state := r.2, asserts := asserts }
  | none => { value := 0, state := s, asserts := asserts }

/-- `PluginDescriptorClass::writeMidiEvent(event)`. -/
def writeMidiEvent (self : PluginDescriptorClass σ) (event : Pointer) (s : σ) :
    CallResult σ Unit :=
  let asserts := CARLA_ASSERT self.m_host.isSome
  match self.m_host with
  | some host =>
    { value := (), state := host.write_midi_event host.handle event s, asserts := asserts }
  | none => { value := (), state := s, asserts := asserts }

/-- `PluginDescriptorClass::uiParameterChanged(index, value)`. -/
def uiParameterChanged (self : PluginDescriptorClass σ) (index : Nat) (value : CFloat)
    (s : σ) : CallResult σ Unit :=
  let asserts := CARLA_ASSERT self.m_host.isSome
  match self.m_host with
  | some host =>
    { value := (), state := host.ui_parameter_changed host.handle index value s,
      asserts := asserts }
  | none => { value := (), state := s, asserts := asserts }

/-- `PluginDescriptorClass::uiMidiProgramChanged(bank, program)`. -/
def uiMidiProgramChanged (self : PluginDescriptorClass σ) (bank program : Nat)
    (s : σ) : CallResult σ Unit :=
  let asserts := CARLA_ASSERT self.m_host.isSome
  match self.m_host with
  | some host =>
    { value := (), state := host.ui_midi_program_changed host.handle bank program s,
      asserts := asserts }
  | none => { value := (), state := s, asserts := asserts }

/-- `PluginDescriptorClass::uiCustomDataChanged(key, value)`. -/
def uiCustomDataChanged (self : PluginDescriptorClass σ) (key value : Option String)
    (s : σ) : CallResult σ Unit :=
  let asserts := CARLA_ASSERT self.m_host.isSome
  match self.m_host with
  | some host =>
    { value := (), state := host.ui_custom_data_changed host.handle key value s,
      asserts := asserts }
  | none => { value := (), state := s, asserts := asserts }

/-- `PluginDescriptorClass::uiClosed()`. -/
def uiClosed (self : PluginDescriptorClass σ) (s : σ) : CallResult σ Unit :=
  let asserts := CARLA_ASSERT self.m_host.isSome
  match self.m_host with
  | some host =>
    { value := (), state := host.ui_closed host.handle s, asserts := asserts }
  | none => { value := (), state := s, asserts := asserts }

/-! ### Static entry points -/

/-- The static `PluginDescriptorClass::_process`; `handle` is the object the
`PluginHandle` is cast to. -/
def _process (handle : PluginDescriptorClass σ) (inBuffer outBuffer : Pointer)
    (frames midiEventCount : Nat) (midiEvents : Pointer) (s : σ) : CallResult σ Unit :=
  handle.process inBuffer outBuffer frames midiEventCount midiEvents s

/-- The static `PluginDescriptorClass::_get_parameter_count`. -/
def _get_parameter_count (handle : PluginDescriptorClass σ) (s : σ) : CallResult σ Nat :=
  handle.getParameterCount s

/-- The static `PluginDescriptorClass::_get_parameter_info`. -/
def _get_parameter_info (handle : PluginDescriptorClass σ) (index : Nat) (s : σ) :
    CallResult σ Pointer :=
  handle.getParameterInfo index s

/-- The static `PluginDescriptorClass::_get_parameter_value`. -/
def _get_parameter_value (handle : PluginDescriptorClass σ) (index : Nat) (s : σ) :
    CallResult σ CFloat :=
  handle.getParameterValue index s

/-- The static `PluginDescriptorClass::_get_parameter_text`. -/
def _get_parameter_text (handle : PluginDescriptorClass σ) (index : Nat) (s : σ) :
    CallResult σ (Option String) :=
  handle.getParameterText index s

/-- The static `PluginDescriptorClass::_get_midi_program_count`. -/
def _get_midi_program_count (handle : PluginDescriptorClass σ) (s : σ) :
    CallResult σ Nat :=
  handle.getMidiProgramCount s

/-- The static `PluginDescriptorClass::_get_midi_program_info`. -/
def _get_midi_program_info (handle : PluginDescriptorClass σ) (index : Nat) (s : σ) :
    CallResult σ Pointer :=
  handle.getMidiProgramInfo index s

/-- The static `PluginDescriptorClass::_set_parameter_value`. -/
def _set_parameter_value (handle : PluginDescriptorClass σ) (index : Nat)
    (value : CFloat) (s : σ) : CallResult σ Unit :=
  handle.setParameterValue index value s

/-- The static `PluginDescriptorClass::_set_midi_program`. -/
def _set_midi_program (handle : PluginDescriptorClass σ) (bank program : Nat) (s : σ) :
    CallResult σ Unit :=
  handle.setMidiProgram bank program s

/-- The static `PluginDescriptorClass::_set_custom_data`. -/
def _set_custom_data (handle : PluginDescriptorClass σ) (key value : Option String)
    (s : σ) : CallResult σ Unit :=
  handle.setCustomData key value s

/-- The static `PluginDescriptorClass::_ui_show`. -/
def _ui_show (handle : PluginDescriptorClass σ) (isShown : Bool) (s : σ) :
    CallResult σ Unit :=
  handle.uiShow isShown s

/-- The static `PluginDescriptorClass::_ui_idle`. -/
def _ui_idle (handle : PluginDescriptorClass σ) (s : σ) : CallResult σ Unit :=
  handle.uiIdle s

/-- The static `PluginDescriptorClass::_ui_set_parameter_value`. -/
def _ui_set_parameter_value (handle : PluginDescriptorClass σ) (index : Nat)
    (value : CFloat) (s : σ) : CallResult σ Unit :=
  handle.uiSetParameterValue index value s

/-- The static `PluginDescriptorClass::_ui_set_midi_program`. -/
def _ui_set_midi_program (handle : PluginDescriptorClass σ) (bank program : Nat)
    (s : σ) : CallResult σ Unit :=
  handle.uiSetMidiProgram bank program s

/-- The static `PluginDescriptorClass::_ui_set_custom_data`. -/
def _ui_set_custom_data (handle : PluginDescriptorClass σ) (key value : Option String)
    (s : σ) : CallResult σ Unit :=
  handle.uiSetCustomData key value s

/-- The static `PluginDescriptorClass::_activate`. -/
def _activate (handle : PluginDescriptorClass σ) (s : σ) : CallResult σ Unit :=
  handle.activate s

/-- The static `PluginDescriptorClass::_deactivate`. -/
def _deactivate (handle : PluginDescriptorClass σ) (s : σ) : CallResult σ Unit :=
  handle.deactivate s

end PluginDescriptorClass

/-! ### Member functions as `PluginDescriptorClass` itself defines them -/

namespace PluginDescriptorClass.Base

variable {σ : Type}

/-- `PluginDescriptorClass::getParameterCount()`. -/
def getParameterCount (s : σ) : CallResult σ Nat :=
  { value := 0, state := s, asserts := [] }

/-- `PluginDescriptorClass::getParameterInfo(index)`; the first argument is the
`getParameterCount` of the dynamic class, which the assertion calls. -/
def getParameterInfo (count : σ → CallResult σ Nat) (index : Nat) (s : σ) :
    CallResult σ Pointer :=
  let c := count s
  { value := 0, state := c.state, asserts := c.asserts ++ CARLA_ASSERT (index < c.value) }

/-- `PluginDescriptorClass::getParameterValue(index)`. -/
def getParameterValue (count : σ → CallResult σ Nat) (index : Nat) (s : σ) :
    CallResult σ CFloat :=
  let c := count s
  { value := CFloat.zero, state := c.state,
    asserts := c.asserts ++ CARLA_ASSERT (index < c.value) }

/-- `PluginDescriptorClass::getParameterText(index)`. -/
def getParameterText (count : σ → CallResult σ Nat) (index : Nat) (s : σ) :
    CallResult σ (Option String) :=
  let c := count s
  { value := none, state := c.state, asserts := c.asserts ++ CARLA_ASSERT (index < c.value) }

/-- `PluginDescriptorClass::getMidiProgramCount()`. -/
def getMidiProgramCount (s : σ) : CallResult σ Nat :=
  { value := 0, state := s, asserts := [] }

/-- `PluginDescriptorClass::getMidiProgramInfo(index)`; the first argument is
the `getMidiProgramCount` of the dynamic class. -/
def getMidiProgramInfo (count : σ → CallResult σ Nat) (index : Nat) (s : σ) :
    CallResult σ Pointer :=
  let c := count s
  { value := 0, state := c.state, asserts := c.asserts ++ CARLA_ASSERT (index < c.value) }

/-- `PluginDescriptorClass::setParameterValue(index, value)`. -/
def setParameterValue (count : σ → CallResult σ Nat) (index : Nat) (_value : CFloat)
    (s : σ) : CallResult σ Unit :=
  let c := count s
  { value := (), state := c.state, asserts := c.asserts ++ CARLA_ASSERT (index < c.value) }

/-- `PluginDescriptorClass::setMidiProgram(bank, program)`. -/
def setMidiProgram (_bank _program : Nat) (s : σ) : CallResult σ Unit :=
  { value := (), state := s, asserts := [] }

/-- `PluginDescriptorClass::setCustomData(key, value)`. -/
def setCustomData (key value : Option String) (s : σ) : CallResult σ Unit :=
  { value := (), state := s,
    asserts := CARLA_ASSERT key.isSome ++ CARLA_ASSERT value.isSome }

/-- `PluginDescriptorClass::activate()`. -/
def activate (s : σ) : CallResult σ Unit :=
  { value := (), state := s, asserts := [] }

/-- `PluginDescriptorClass::deactivate()`. -/
def deactivate (s : σ) : CallResult σ Unit :=
  { value := (), state := s, asserts := [] }

/-- `PluginDescriptorClass::uiShow(show)`. -/
def uiShow (_show : Bool) (s : σ) : CallResult σ Unit :=
  { value := (), state := s, asserts := [] }

/-- `PluginDescriptorClass::uiIdle()`. -/
def uiIdle (s : σ) : CallResult σ Unit :=
  { value := (), state := s, asserts := [] }

/-- `PluginDescriptorClass::uiSetParameterValue(index, value)`. -/
def uiSetParameterValue (count : σ → CallResult σ Nat) (index : Nat) (_value : CFloat)
    (s : σ) : CallResult σ Unit :=
  let c := count s
  { value := (), state := c.state, asserts := c.asserts ++ CARLA_ASSERT (index < c.value) }

/-- `PluginDescriptorClass::uiSetMidiProgram(bank, program)`. -/
def uiSetMidiProgram (_bank _program : Nat) (s : σ) : CallResult σ Unit :=
  { value := (), state := s, asserts := [] }

/-- `PluginDescriptorClass::uiSetCustomData(key, value)`. -/
def uiSetCustomData (key value : Option String) (s : σ) : CallResult σ Unit :=
  { value := (), state := s,
    asserts := CARLA_ASSERT key.isSome ++ CARLA_ASSERT value.isSome }

end PluginDescriptorClass.Base

/-- An object of a derived class that defines the pure virtual `process` and
overrides nothing else, built by the constructor
`PluginDescriptorClass(const HostDescriptor* const host)`. -/
def PluginDescriptorClass.new {σ : Type} (host : Option (HostDescriptor σ))
    (process : Pointer → Pointer → Nat → Nat → Pointer → σ → CallResult σ Unit) :
    PluginDescriptorClass σ :=
  { m_host := host
    getParameterCount := Base.getParameterCount
    getParameterInfo := Base.getParameterInfo Base.getParameterCount
    getParameterValue := Base.getParameterValue Base.getParameterCount
    getParameterText := Base.getParameterText Base.getParameterCount
    getMidiProgramCount := Base.getMidiProgramCount
    getMidiProgramInfo := Base.getMidiProgramInfo Base.getMidiProgramCount
    setParameterValue := Base.setParameterValue Base.getParameterCount
    setMidiProgram := Base.setMidiProgram
    setCustomData := Base.setCustomData
    activate := Base.activate
    deactivate := Base.deactivate
    process := process
    uiShow := Base.uiShow
    uiIdle := Base.uiIdle
    uiSetParameterValue := Base.uiSetParameterValue Base.getParameterCount
    uiSetMidiProgram := Base.uiSetMidiProgram
    uiSetCustomData := Base.uiSetCustomData }

/-! ### A recording host and a recording plugin -/

/-- One call received by the host, with the arguments it received. -/
inductive HostCall
  | get_buffer_size (handle : Pointer)
  | get_sample_rate (handle : Pointer)
  | get_time_info (handle : Pointer)
  | write_midi_event (handle event : Pointer)
  | ui_parameter_changed (handle : Pointer) (index : Nat) (value : CFloat)
  | ui_midi_program_changed (handle : Pointer) (bank program : Nat)
  | ui_custom_data_changed (handle : Pointer) (key value : Option String)
  | ui_closed (handle : Pointer)
deriving DecidableEq, Repr

/-- One entry of the trace of a run: a call received by the host, or the entry
into or the return from the `process` of the plugin. -/
inductive TraceEntry
  | host (call : HostCall)
  | processEnter (inBuffer outBuffer : Pointer) (frames midiEventCount : Nat)
      (midiEvents : Pointer)
  | processReturn
deriving DecidableEq, Repr

/-- The number of `process` calls entered and not yet returned from, at the end
of a trace. -/
def processDepth : List TraceEntry → Nat
  | [] => 0
  | .processEnter _ _ _ _ _ :: rest => processDepth rest + 1
  | .processReturn :: rest => processDepth rest - 1
  | .host _ :: rest => processDepth rest

/-- Whether a trace, oldest entry first, ends inside a `process` call. -/
def insideProcess (trace : List TraceEntry) : Bool :=
  0 < processDepth trace.reverse

/-- A host that appends every call it receives to the trace and answers the
three queries with the given values. -/
def recordingHost (handle : Pointer) (bufferSize : Nat) (sampleRate : CDouble)
    (timeInfo : Pointer) : HostDescriptor (List TraceEntry) :=
  { handle := handle
    get_buffer_size := fun h t => (bufferSize, t ++ [.host (.get_buffer_size h)])
    get_sample_rate := fun h t => (sampleRate, t ++ [.host (.get_sample_rate h)])
    get_time_info := fun h t => (timeInfo, t ++ [.host (.get_time_info h)])
    write_midi_event := fun h event t => t ++ [.host (.write_midi_event h event)]
    ui_parameter_changed := fun h index value t =>
      t ++ [.host (.ui_parameter_changed h index value)]
    ui_midi_program_changed := fun h bank program t =>
      t ++ [.host (.ui_midi_program_changed h bank program)]
    ui_custom_data_changed := fun h key value t =>
      t ++ [.host (.ui_custom_data_changed h key value)]
    ui_closed := fun h t => t ++ [.host (.ui_closed h)] }

/-- A `process` that records its entry with the arguments it received and its
return, and does nothing in between. -/
def recordingProcess (inBuffer outBuffer : Pointer) (frames midiEventCount : Nat)
    (midiEvents : Pointer) (t : List TraceEntry) : CallResult (List TraceEntry) Unit :=
  { value := ()
    state := t ++ [.processEnter inBuffer outBuffer frames midiEventCount midiEvents,
                   .processReturn]
    asserts := [] }

/-! ### A plugin that records which member function was reached -/

/-- One call received by a member function of the plugin, with the arguments it
received. -/
inductive MethodCall
  | getParameterCount
  | getParameterInfo (index : Nat)
  | getParameterValue (index : Nat)
  | getParameterText (index : Nat)
  | getMidiProgramCount
  | getMidiProgramInfo (index : Nat)
  | setParameterValue (index : Nat) (value : CFloat)
  | setMidiProgram (bank program : Nat)
  | setCustomData (key value : Option String)
  | activate
  | deactivate
  | process (inBuffer outBuffer : Pointer) (frames midiEventCount : Nat)
      (midiEvents : Pointer)
  | uiShow (isShown : Bool)
  | uiIdle
  | uiSetParameterValue (index : Nat) (value : CFloat)
  | uiSetMidiProgram (bank program : Nat)
  | uiSetCustomData (key value : Option String)
deriving DecidableEq, Repr

/-- The result of a member function that appends its own call to the list of
calls and returns the given value. -/
def recordCall {α : Type} (call : MethodCall) (value : α) (calls : List MethodCall) :
    CallResult (List MethodCall) α :=
  { value := value, state := calls ++ [call], asserts := [] }

/-- A plugin that overrides every virtual member function: each one records its
own call. The counts are 3 and 5, the pointers returned are 101 and 102, the
parameter value is 1.0 and the parameter text is "text". -/
def tracingPlugin : PluginDescriptorClass (List MethodCall) :=
  { m_host := none
    getParameterCount := recordCall .getParameterCount 3
    getParameterInfo := fun index => recordCall (.getParameterInfo index) 101
    getParameterValue := fun index => recordCall (.getParameterValue index) CFloat.one
    getParameterText := fun index => recordCall (.getParameterText index) (some "text")
    getMidiProgramCount := recordCall .getMidiProgramCount 5
    getMidiProgramInfo := fun index => recordCall (.getMidiProgramInfo index) 102
    setParameterValue := fun index value => recordCall (.setParameterValue index value) ()
    setMidiProgram := fun bank program => recordCall (.setMidiProgram bank program) ()
    setCustomData := fun key value => recordCall (.setCustomData key value) ()
    activate := recordCall .activate ()
    deactivate := recordCall .deactivate ()
    process := fun inBuffer outBuffer frames midiEventCount midiEvents =>
      recordCall (.process inBuffer outBuffer frames midiEventCount midiEvents) ()
    uiShow := fun isShown => recordCall (.uiShow isShown) ()
    uiIdle := recordCall .uiIdle ()
    uiSetParameterValue := fun index value =>
      recordCall (.uiSetParameterValue index value) ()
    uiSetMidiProgram := fun bank program => recordCall (.uiSetMidiProgram bank program) ()
    uiSetCustomData := fun key value => recordCall (.uiSetCustomData key value) () }

/-! ## Unique plugin names -/

/-- Modelled from the spec: the body of `CarlaEngine::getUniquePluginName` is
not among the sources (the header only declares it). A candidate name is the
base name with ` (N)` appended, `N` written in decimal. -/
def uniqueNameCandidate (base : String) (n : Nat) : String :=
  base ++ " (" ++ Nat.repr n ++ ")"

/-- Modelled from the spec: part of `CarlaEngine::getUniquePluginName`, whose
body is not among the sources. The search for the smallest number, from `n`
upwards, whose candidate name is not in use; `names` are the names of the
plugins of the engine and `fuel` bounds the number of candidates tried. -/
def firstUnusedNumber (names : List String) (base : String) : Nat → Nat → Nat
  | 0, n => n
  | fuel + 1, n =>
    if uniqueNameCandidate base n ∈ names then firstUnusedNumber names base fuel (n + 1)
    else n

/-- Modelled from the spec: the body of `CarlaEngine::getUniquePluginName` is
not among the sources (the header only declares it). `get_unique_plugin_name(base)`
returns `base` if free, else appends ` (N)` with the smallest `N ≥ 2` not
currently used; names are compared byte for byte. `names` are the names of the
plugins of the engine; no more than `names.length` candidates can be in use. -/
def getUniquePluginName (names : List String) (base : String) : String :=
  if base ∈ names then
    uniqueNameCandidate base (firstUnusedNumber names base names.length 2)
  else
    base

/-! ## Musical position in internal transport mode -/

/-- Modelled from the spec: the code that derives the bar, beat and tick in
internal transport mode is not among the sources (only `struct
EngineTimeInfoBBT`, which holds its inputs and results, is). These are the
inputs of the derivation; the `float` and `double` quantities `beatsPerBar`,
`ticksPerBeat`, `beatsPerMinute` and the sample rate are exact rationals. -/
structure BBTSettings where
  beatsPerBar : ℚ
  ticksPerBeat : ℚ
  beatsPerMinute : ℚ
  sampleRate : ℚ

/-- Modelled from the spec: the derivation is not among the sources;
`beats_total = frame * bpm / (60 * sample_rate)`. -/
def beatsTotal (c : BBTSettings) (frame : Nat) : ℚ :=
  frame * c.beatsPerMinute / (60 * c.sampleRate)

/-- Modelled from the spec: the derivation is not among the sources; `x mod y`
for a positive `y` is what remains of `x` after the whole multiples of `y`. -/
def modBeats (x y : ℚ) : ℚ := x - y * ⌊x / y⌋

/-- Modelled from the spec: the derivation is not among the sources;
`bar = floor(beats_total / beats_per_bar) + 1`. -/
def bbtBar (c : BBTSettings) (frame : Nat) : ℤ :=
  ⌊beatsTotal c frame / c.beatsPerBar⌋ + 1

/-- Modelled from the spec: the derivation is not among the sources;
`beat = floor(beats_total mod beats_per_bar) + 1`. -/
def bbtBeat (c : BBTSettings) (frame : Nat) : ℤ :=
  ⌊modBeats (beatsTotal c frame) c.beatsPerBar⌋ + 1

/-- Modelled from the spec: the derivation is not among the sources;
`tick = floor(fractional_beat * ticks_per_beat)`, the fractional beat being the
fractional part of `beats_total`. -/
def bbtTick (c : BBTSettings) (frame : Nat) : ℤ :=
  ⌊Int.fract (beatsTotal c frame) * c.ticksPerBeat⌋

/-! ## Sample values -/

/-- A stopped transport at frame 0 with no valid BBT, whose tempo field holds
the given value. -/
def stoppedWithTempo (bpm : CDouble) : EngineTimeInfo :=
  { playing := false
    frame := 0
    usecs := 0
    valid := 0
    bbt := { EngineTimeInfoBBT.new with beatsPerMinute := bpm } }

/-- The BBT fields with every field but the tempo replaced. -/
def EngineTimeInfoBBT.withTempoOf (other self : EngineTimeInfoBBT) : EngineTimeInfoBBT :=
  { other with beatsPerMinute := self.beatsPerMinute }

/-- A quiet NaN of type `double`. -/
def CDouble.nan : CDouble := ⟨0x7FF8000000000000⟩

/-- The object with its host pointer set to the given host descriptor. -/
def PluginDescriptorClass.withHost {σ : Type} (self : PluginDescriptorClass σ)
    (host : HostDescriptor σ) : PluginDescriptorClass σ :=
  { self with m_host := some host }

/-- The object with a null host pointer. -/
def PluginDescriptorClass.withoutHost {σ : Type} (self : PluginDescriptorClass σ) :
    PluginDescriptorClass σ :=
  { self with m_host := none }

/-- A plugin with the recording `process`, attached to the recording host with
handle 1, buffer size 512, sample rate 0.0 and a null time info. -/
def recordingPlugin : PluginDescriptorClass (List TraceEntry) :=
  PluginDescriptorClass.new (some (recordingHost 1 512 CDouble.zero 0)) recordingProcess

/-! ## Theorems -/

/-! ### Shared lemmas -/

theorem EnginePort.isInput_call (p : EnginePort) (c : PortCall) :
    (p.call c).isInput = p.isInput := by
  cases p <;> cases c <;>
    simp [EnginePort.call, EnginePort.isInput, EnginePort.base,
      CarlaEngineAudioPort.initBuffer, CarlaEngineCVPort.initBuffer,
      CarlaEngineEventPort.initBuffer, CarlaEngineEventPort.writeControlEvent,
      CarlaEngineEventPort.writeMidiEvent] <;>
    split <;> rfl

theorem EnginePort.isInput_run (calls : List PortCall) (p : EnginePort) :
    (p.run calls).isInput = p.isInput := by
  induction calls generalizing p with
  | nil => rfl
  | cons c cs ih =>
    show ((p.call c).run cs).isInput = p.isInput
    rw [ih, EnginePort.isInput_call]

theorem CDouble.eq_self (x : CDouble) : x.eq x = !x.isNaN := by
  cases h : x.isNaN <;> simp [CDouble.eq, h]

theorem CDouble.eq_iff_parts (x y : CDouble) :
    x.eq y = true ↔
      x.isNaN = false ∧ y.isNaN = false ∧
        ((x.isZero = true ∧ y.isZero = true) ∨
          (x.sign = y.sign ∧ x.exponent = y.exponent ∧ x.mantissa = y.mantissa)) := by
  simp [CDouble.eq, and_assoc]

theorem CDouble.eq_symm (x y : CDouble) : x.eq y = y.eq x := by
  rw [Bool.eq_iff_iff, CDouble.eq_iff_parts, CDouble.eq_iff_parts]
  constructor
  · rintro ⟨h1, h2, h3 | h3⟩
    · exact ⟨h2, h1, Or.inl ⟨h3.2, h3.1⟩⟩
    · exact ⟨h2, h1, Or.inr ⟨h3.1.symm, h3.2.1.symm, h3.2.2.symm⟩⟩
  · rintro ⟨h1, h2, h3 | h3⟩
    · exact ⟨h2, h1, Or.inl ⟨h3.2, h3.1⟩⟩
    · exact ⟨h2, h1, Or.inr ⟨h3.1.symm, h3.2.1.symm, h3.2.2.symm⟩⟩

theorem CDouble.isZero_iff (x : CDouble) :
    x.isZero = true ↔ x.exponent = 0 ∧ x.mantissa = 0 := by
  simp [CDouble.isZero]

theorem CDouble.eq_trans (x y z : CDouble) (hxy : x.eq y = true) (hyz : y.eq z = true) :
    x.eq z = true := by
  rw [CDouble.eq_iff_parts] at hxy hyz ⊢
  obtain ⟨hx, _, hxy⟩ := hxy
  obtain ⟨_, hz, hyz⟩ := hyz
  refine ⟨hx, hz, ?_⟩
  rcases hxy with ⟨zx, zy⟩ | ⟨s1, e1, m1⟩
  · rcases hyz with ⟨_, zz⟩ | ⟨_, e2, m2⟩
    · exact Or.inl ⟨zx, zz⟩
    · rw [CDouble.isZero_iff] at zy
      exact Or.inl ⟨zx, (CDouble.isZero_iff z).2 ⟨e2 ▸ zy.1, m2 ▸ zy.2⟩⟩
  · rcases hyz with ⟨zy, zz⟩ | ⟨s2, e2, m2⟩
    · rw [CDouble.isZero_iff] at zy
      exact Or.inl ⟨(CDouble.isZero_iff x).2 ⟨e1.symm ▸ zy.1, m1.symm ▸ zy.2⟩, zz⟩
    · exact Or.inr ⟨s1.trans s2, e1.trans e2, m1.trans m2⟩

theorem EngineTimeInfo.eq_iff_fields (a b : EngineTimeInfo) :
    a.eq b = true ↔
      a.playing = b.playing ∧ a.frame = b.frame ∧ a.valid = b.valid ∧
        b.bbt.beatsPerMinute.eq a.bbt.beatsPerMinute = true := by
  simp only [EngineTimeInfo.eq, CDouble.ne]
  constructor
  · intro h
    split at h
    · exact absurd h (by simp)
    · split at h
      · exact absurd h (by simp)
      · split at h
        · exact absurd h (by simp)
        · simp_all
  · rintro ⟨h1, h2, h3, h4⟩
    simp [h1, h2, h3, h4]

theorem digitChar_toNat (k : Nat) (hk : k < 10) : (Nat.digitChar k).toNat - 48 = k := by
  interval_cases k <;> rfl

theorem foldl_toDigitsCore (fuel : Nat) : ∀ (n : Nat) (ds : List Char), n < fuel →
    (Nat.toDigitsCore 10 fuel n ds).foldl (fun acc c => acc * 10 + (c.toNat - 48)) 0
      = ds.foldl (fun acc c => acc * 10 + (c.toNat - 48)) n := by
  induction fuel with
  | zero => intro n ds h; omega
  | succ fuel ih =>
    intro n ds h
    have hd : (Nat.digitChar (n % 10)).toNat - 48 = n % 10 :=
      digitChar_toNat _ (Nat.mod_lt _ (by decide))
    unfold Nat.toDigitsCore
    simp only
    split
    · rename_i h0
      simp only [List.foldl_cons, hd]
      congr 1
      omega
    · rename_i h0
      rw [ih (n / 10) _ (by omega)]
      simp only [List.foldl_cons, hd]
      congr 1
      omega

theorem toDigits_injective (n m : Nat) (h : Nat.toDigits 10 n = Nat.toDigits 10 m) : n = m := by
  have hn := foldl_toDigitsCore (n + 1) n [] (by omega)
  have hm := foldl_toDigitsCore (m + 1) m [] (by omega)
  simp only [List.foldl_nil] at hn hm
  rw [← hn, ← hm]
  unfold Nat.toDigits at h
  rw [h]

theorem uniqueNameCandidate_injective (base : String) (n m : Nat)
    (h : uniqueNameCandidate base n = uniqueNameCandidate base m) : n = m := by
  apply toDigits_injective
  have h2 := congrArg String.data h
  simp only [uniqueNameCandidate, String.data_append, List.append_assoc] at h2
  have h3 := List.append_cancel_left (List.append_cancel_left h2)
  have h4 := List.append_cancel_right h3
  exact h4

theorem firstUnusedNumber_spec (names : List String) (base : String) (fuel : Nat) :
    ∀ n : Nat,
      n ≤ firstUnusedNumber names base fuel n ∧
        firstUnusedNumber names base fuel n ≤ n + fuel ∧
        (∀ m, n ≤ m → m < firstUnusedNumber names base fuel n →
          uniqueNameCandidate base m ∈ names) ∧
        (firstUnusedNumber names base fuel n < n + fuel →
          uniqueNameCandidate base (firstUnusedNumber names base fuel n) ∉ names) := by
  induction fuel with
  | zero =>
    intro n
    refine ⟨Nat.le_refl _, Nat.le_refl _, ?_, ?_⟩
    · intro m h1 h2
      simp only [firstUnusedNumber] at h2
      omega
    · intro h
      simp only [firstUnusedNumber] at h
      omega
  | succ fuel ih =>
    intro n
    by_cases hmem : uniqueNameCandidate base n ∈ names
    · have hstep : firstUnusedNumber names base (fuel + 1) n
          = firstUnusedNumber names base fuel (n + 1) := by
        simp [firstUnusedNumber, hmem]
      rw [hstep]
      obtain ⟨h1, h2, h3, h4⟩ := ih (n + 1)
      refine ⟨by omega, by omega, ?_, ?_⟩
      · intro m hm1 hm2
        by_cases hmn : m = n
        · rw [hmn]; exact hmem
        · exact h3 m (by omega) hm2
      · intro h
        exact h4 (by omega)
    · have hstep : firstUnusedNumber names base (fuel + 1) n = n := by
        simp [firstUnusedNumber, hmem]
      rw [hstep]
      refine ⟨Nat.le_refl _, by omega, ?_, ?_⟩
      · intro m hm1 hm2
        omega
      · intro _
        exact hmem

theorem uniqueNameCandidate_pigeonhole (names : List String) (base : String)
    (h : ∀ m, 2 ≤ m → m < 2 + names.length → uniqueNameCandidate base m ∈ names) :
    uniqueNameCandidate base (2 + names.length) ∉ names := by
  intro hlast
  have hnodup : ((List.range (names.length + 1)).map
      (fun i => uniqueNameCandidate base (2 + i))).Nodup := by
    apply List.Nodup.map _ (List.nodup_range _)
    intro i j hij
    have := uniqueNameCandidate_injective base _ _ hij
    omega
  have hsub : (List.range (names.length + 1)).map
      (fun i => uniqueNameCandidate base (2 + i)) ⊆ names := by
    intro x hx
    rw [List.mem_map] at hx
    obtain ⟨i, hi, rfl⟩ := hx
    rw [List.mem_range] at hi
    by_cases hlt : i < names.length
    · exact h (2 + i) (by omega) (by omega)
    · have : i = names.length := by omega
      rw [this]
      exact hlast
  have hlen := (List.subperm_of_subset hnodup hsub).length_le
  simp at hlen

/-- C1, as stated, fails: an audio port whose buffer holds the single sample
1.0 still holds a sample that is not 0.0 after `initBuffer()`. -/
theorem audioPort_initBuffer_not_zeroed :
    ¬ ∀ s ∈ (CarlaEngineAudioPort.new true [CFloat.one]).initBuffer.getBuffer,
        s.eq CFloat.zero = true := by
  decide

/-- C1, amended: `CarlaEngineAudioPort::initBuffer()` is a no-operation. For
every audio port the buffer read after it is the buffer read before it, the
whole port is unchanged, and so a buffer whose samples were all 0.0 still has
all samples 0.0. -/
theorem audioPort_initBuffer_keeps_buffer (p : CarlaEngineAudioPort) :
    p.initBuffer.getBuffer = p.getBuffer ∧ p.initBuffer = p ∧
      ((∀ s ∈ p.getBuffer, s.eq CFloat.zero = true) →
        ∀ s ∈ p.initBuffer.getBuffer, s.eq CFloat.zero = true) :=
  ⟨rfl, rfl, fun h => h⟩

/-! ### Comparison of time information -/

/-- C2, as stated, fails: two stopped time infos at frame 0 with `valid = 0`
(the `ValidBBT` bit clear) that differ only in `bbt.beatsPerMinute` (120.0 and
140.0) do not compare equal. -/
theorem timeInfo_eq_consults_tempo :
    (stoppedWithTempo CDouble.bpm120).hasValidBBT = false ∧
      (stoppedWithTempo CDouble.bpm140).hasValidBBT = false ∧
      (stoppedWithTempo CDouble.bpm120).playing = (stoppedWithTempo CDouble.bpm140).playing ∧
      (stoppedWithTempo CDouble.bpm120).frame = (stoppedWithTempo CDouble.bpm140).frame ∧
      (stoppedWithTempo CDouble.bpm120).valid = (stoppedWithTempo CDouble.bpm140).valid ∧
      (stoppedWithTempo CDouble.bpm120).eq (stoppedWithTempo CDouble.bpm140) = false := by
  decide

/-- C2, amended: for time infos `a` and `b` whose `ValidBBT` bit is clear and
which agree on `playing`, `frame` and `valid`, `a == b` is true exactly when
their `bbt.beatsPerMinute` compare equal as doubles; the other BBT fields are
not consulted: replacing them in either operand leaves the result unchanged. -/
theorem timeInfo_eq_without_bbt (a b : EngineTimeInfo)
    (_ha : a.hasValidBBT = false) (_hb : b.hasValidBBT = false)
    (hplaying : a.playing = b.playing) (hframe : a.frame = b.frame)
    (hvalid : a.valid = b.valid) :
    (a.eq b = true ↔ b.bbt.beatsPerMinute.eq a.bbt.beatsPerMinute = true) ∧
      ∀ bbtA bbtB : EngineTimeInfoBBT,
        EngineTimeInfo.eq { a with bbt := bbtA.withTempoOf a.bbt }
          { b with bbt := bbtB.withTempoOf b.bbt } = a.eq b := by
  constructor
  · simp [EngineTimeInfo.eq, CDouble.ne, hplaying, hframe, hvalid]
  · intro bbtA bbtB
    simp [EngineTimeInfo.eq, EngineTimeInfoBBT.withTempoOf]

/-- Witness for C2 amended: two stopped time infos at frame 0 with the
`ValidBBT` bit clear and tempo 120.0. -/
theorem timeInfo_eq_without_bbt_witness :
    (stoppedWithTempo CDouble.bpm120).hasValidBBT = false ∧
      (((stoppedWithTempo CDouble.bpm120).eq (stoppedWithTempo CDouble.bpm120) = true ↔
          (stoppedWithTempo CDouble.bpm120).bbt.beatsPerMinute.eq
            (stoppedWithTempo CDouble.bpm120).bbt.beatsPerMinute = true) ∧
        ∀ bbtA bbtB : EngineTimeInfoBBT,
          EngineTimeInfo.eq
            { stoppedWithTempo CDouble.bpm120 with
              bbt := bbtA.withTempoOf (stoppedWithTempo CDouble.bpm120).bbt }
            { stoppedWithTempo CDouble.bpm120 with
              bbt := bbtB.withTempoOf (stoppedWithTempo CDouble.bpm120).bbt } =
            (stoppedWithTempo CDouble.bpm120).eq (stoppedWithTempo CDouble.bpm120)) :=
  ⟨by decide,
    timeInfo_eq_without_bbt (stoppedWithTempo CDouble.bpm120)
      (stoppedWithTempo CDouble.bpm120) (by decide) (by decide) rfl rfl rfl⟩

/-! ### Transport relocation -/

/-- C3, as stated, fails: the frame position `2 ^ 32` fits the 64-bit `frame`
field, but relocating to it through `transportRelocate` or through
`carla_transport_relocate` leaves the transport at frame 0. -/
theorem transportRelocate_truncates :
    isUInt64 (2 ^ 32) = true ∧
      (transportRelocate (stoppedWithTempo CDouble.bpm120) (2 ^ 32)).frame ≠ 2 ^ 32 ∧
      (carla_transport_relocate (stoppedWithTempo CDouble.bpm120) (2 ^ 32)).frame ≠ 2 ^ 32 := by
  decide

/-- C3, amended: for every frame position `f` that fits the `uint32_t`
parameter of the entry points (`f < 2 ^ 32`), `transportRelocate` and
`carla_transport_relocate` set the transport frame to exactly `f` and leave the
playing flag unchanged. -/
theorem transportRelocate_uint32 (timeInfo : EngineTimeInfo) (f : Nat)
    (hf : f < 2 ^ 32) :
    (transportRelocate timeInfo f).frame = f ∧
      (transportRelocate timeInfo f).playing = timeInfo.playing ∧
      (carla_transport_relocate timeInfo f).frame = f ∧
      (carla_transport_relocate timeInfo f).playing = timeInfo.playing := by
  have h : toUInt32 f = f := Nat.mod_eq_of_lt hf
  simp [transportRelocate, carla_transport_relocate, h]

/-- Witness for C3 amended: relocating a playing transport to frame 480000. -/
theorem transportRelocate_uint32_witness :
    480000 < 2 ^ 32 ∧
      (transportRelocate (transportPlay (stoppedWithTempo CDouble.bpm120)) 480000).frame
        = 480000 ∧
      (transportRelocate (transportPlay (stoppedWithTempo CDouble.bpm120)) 480000).playing
        = (transportPlay (stoppedWithTempo CDouble.bpm120)).playing ∧
      (carla_transport_relocate (transportPlay (stoppedWithTempo CDouble.bpm120))
        480000).frame = 480000 ∧
      (carla_transport_relocate (transportPlay (stoppedWithTempo CDouble.bpm120))
        480000).playing = (transportPlay (stoppedWithTempo CDouble.bpm120)).playing :=
  ⟨by decide,
    transportRelocate_uint32 (transportPlay (stoppedWithTempo CDouble.bpm120)) 480000
      (by decide)⟩

/-! ### Events produced by `clear()` -/

/-- C4, as stated, fails: `EngineMidiEvent::clear()` applied to a three-byte
note-on event gives an event whose size is not at least 1. -/
theorem midiEvent_clear_size_lt_one :
    ¬ (1 ≤ (EngineMidiEvent.clear
        { port := 0, data0 := 0x90, data1 := 60, data2 := 100, data3 := 0, size := 3 }).size) := by
  decide

/-- C4, amended: every `EngineMidiEvent` value produced by the only operation of
the type, `clear()`, has size 0 (no byte used), so that `0 ≤ size ≤ 4`. -/
theorem midiEvent_clear_size (e : EngineMidiEvent) :
    e.clear.size = 0 ∧ 0 ≤ e.clear.size ∧ e.clear.size ≤ 4 := by
  simp [EngineMidiEvent.clear]

/-- C5, as stated, fails: `EngineControlEvent::clear()` applied to a parameter
event gives an event whose type is none of the five control kinds. -/
theorem controlEvent_clear_not_a_kind :
    (EngineControlEvent.clear
      { type := .kEngineControlEventTypeParameter, param := 7, value := CFloat.one }).type
        ≠ .kEngineControlEventTypeParameter ∧
    (EngineControlEvent.clear
      { type := .kEngineControlEventTypeParameter, param := 7, value := CFloat.one }).type
        ≠ .kEngineControlEventTypeMidiBank ∧
    (EngineControlEvent.clear
      { type := .kEngineControlEventTypeParameter, param := 7, value := CFloat.one }).type
        ≠ .kEngineControlEventTypeMidiProgram ∧
    (EngineControlEvent.clear
      { type := .kEngineControlEventTypeParameter, param := 7, value := CFloat.one }).type
        ≠ .kEngineControlEventTypeAllSoundOff ∧
    (EngineControlEvent.clear
      { type := .kEngineControlEventTypeParameter, param := 7, value := CFloat.one }).type
        ≠ .kEngineControlEventTypeAllNotesOff := by
  decide

/-- C5, amended: every `EngineControlEvent` value produced by the only operation
of the type, `clear()`, has the type `kEngineControlEventTypeNull` (value 0),
which is not one of the five control kinds; a type of `EngineControlEventType`
is either null or one of the five kinds parameter, midi-bank, midi-program,
all-sound-off, all-notes-off. -/
theorem controlEvent_clear_type (e : EngineControlEvent) :
    e.clear.type = .kEngineControlEventTypeNull ∧
      e.clear.type.toNat = 0 ∧
      e.clear.type.isControlKind = false ∧
      ∀ t : EngineControlEventType,
        t = .kEngineControlEventTypeNull ∨
          t = .kEngineControlEventTypeParameter ∨
          t = .kEngineControlEventTypeMidiBank ∨
          t = .kEngineControlEventTypeMidiProgram ∨
          t = .kEngineControlEventTypeAllSoundOff ∨
          t = .kEngineControlEventTypeAllNotesOff := by
  refine ⟨rfl, rfl, rfl, ?_⟩
  intro t
  cases t <;> simp

/-! ### Ports: direction and kind -/

/-- C6: for a port of each class, `isInput()` returns the `isInput` value given
to the constructor, and still returns that value after any sequence of calls of
the operations of the port (`initBuffer`, `getBuffer`, event reads and writes);
for every port in any state, a sequence of calls leaves `isInput()` unchanged. -/
theorem port_isInput_immutable (isInput : Bool) (buffer : List CFloat)
    (calls : List PortCall) :
    (CarlaEngineAudioPort.new isInput buffer).isInput = isInput ∧
      (CarlaEngineCVPort.new isInput buffer).isInput = isInput ∧
      (CarlaEngineEventPort.new isInput).isInput = isInput ∧
      ((EnginePort.audio (CarlaEngineAudioPort.new isInput buffer)).run calls).isInput
        = isInput ∧
      ((EnginePort.cv (CarlaEngineCVPort.new isInput buffer)).run calls).isInput
        = isInput ∧
      ((EnginePort.event (CarlaEngineEventPort.new isInput)).run calls).isInput
        = isInput ∧
      ∀ p : EnginePort, (p.run calls).isInput = p.isInput := by
  refine ⟨rfl, rfl, rfl, ?_, ?_, ?_, ?_⟩
  · rw [EnginePort.isInput_run]; rfl
  · rw [EnginePort.isInput_run]; rfl
  · rw [EnginePort.isInput_run]; rfl
  · intro p
    exact EnginePort.isInput_run calls p

/-- C7: `getType()` of an audio port is `kEnginePortTypeAudio` (1), of a CV port
`kEnginePortTypeCV` (2), of an event port `kEnginePortTypeEvent` (3), whatever
the state of the port; the three results are pairwise distinct and none is
`kEnginePortTypeNull`. -/
theorem port_getType (a : CarlaEngineAudioPort) (c : CarlaEngineCVPort)
    (e : CarlaEngineEventPort) :
    (a.getType = .kEnginePortTypeAudio ∧ a.getType.toNat = 1) ∧
      (c.getType = .kEnginePortTypeCV ∧ c.getType.toNat = 2) ∧
      (e.getType = .kEnginePortTypeEvent ∧ e.getType.toNat = 3) ∧
      (a.getType ≠ c.getType ∧ a.getType ≠ e.getType ∧ c.getType ≠ e.getType) ∧
      (a.getType ≠ .kEnginePortTypeNull ∧ c.getType ≠ .kEnginePortTypeNull ∧
        e.getType ≠ .kEnginePortTypeNull) ∧
      (EnginePort.audio a).getType = .kEnginePortTypeAudio ∧
      (EnginePort.cv c).getType = .kEnginePortTypeCV ∧
      (EnginePort.event e).getType = .kEnginePortTypeEvent := by
  simp [CarlaEngineAudioPort.getType, CarlaEngineCVPort.getType,
    CarlaEngineEventPort.getType, EnginePort.getType, EnginePortType.toNat]

/-! ### Default engine options -/

/-- C8: a default-constructed `EngineOptions` has `uiBridgesTimeout` equal to
4000, on every platform. -/
theorem engineOptions_default_uiBridgesTimeout (carlaOsLinux : Bool) :
    (EngineOptions.new carlaOsLinux).uiBridgesTimeout = 4000 :=
  rfl

/-- C9: a default-constructed `EngineOptions` has `maxParameters` equal to
`MAX_DEFAULT_PARAMETERS`, which is 200, on every platform. -/
theorem engineOptions_default_maxParameters (carlaOsLinux : Bool) :
    (EngineOptions.new carlaOsLinux).maxParameters = MAX_DEFAULT_PARAMETERS ∧
      (EngineOptions.new carlaOsLinux).maxParameters = 200 :=
  ⟨rfl, rfl⟩

/-! ### File callback opcodes -/

/-- C10: the file callback opcodes have the values debug = 0, open = 1 and
save = 2; every `FileCallbackOpcode` is one of these three, and distinct
opcodes have distinct values. -/
theorem fileCallbackOpcode_values :
    FileCallbackOpcode.FILE_CALLBACK_DEBUG.toNat = 0 ∧
      FileCallbackOpcode.FILE_CALLBACK_OPEN.toNat = 1 ∧
      FileCallbackOpcode.FILE_CALLBACK_SAVE.toNat = 2 ∧
      (∀ op : FileCallbackOpcode,
        op = .FILE_CALLBACK_DEBUG ∨ op = .FILE_CALLBACK_OPEN ∨ op = .FILE_CALLBACK_SAVE) ∧
      (∀ op1 op2 : FileCallbackOpcode, op1.toNat = op2.toNat → op1 = op2) := by
  refine ⟨rfl, rfl, rfl, ?_, ?_⟩
  · intro op
    cases op <;> simp
  · intro op1 op2
    cases op1 <;> cases op2 <;> simp [FileCallbackOpcode.toNat]

/-! ### Host calls of the native plugin class -/

/-- C11: with a non-null host descriptor, each host-call wrapper of
`PluginDescriptorClass` is one call of the like-named host function with the
handle of the host and the arguments of the caller: the state it leaves is the
state that host function leaves, and `getBufferSize`, `getSampleRate` and
`getTimeInfo` return what the host function returned. On the recording host,
each wrapper adds exactly one entry to the trace, the like-named call with the
handle of the host and the same arguments. -/
theorem hostCalls_forward_to_host {σ : Type} (self : PluginDescriptorClass σ)
    (host : HostDescriptor σ) (s : σ) (event : Pointer) (index bank program : Nat)
    (value : CFloat) (key val : Option String)
    (rec : PluginDescriptorClass (List TraceEntry)) (handle bufferSize timeInfo : Nat)
    (sampleRate : CDouble) (trace : List TraceEntry) :
    (((self.withHost host).getBufferSize s).value = (host.get_buffer_size host.handle s).1 ∧
      ((self.withHost host).getBufferSize s).state = (host.get_buffer_size host.handle s).2 ∧
      ((self.withHost host).getSampleRate s).value = (host.get_sample_rate host.handle s).1 ∧
      ((self.withHost host).getSampleRate s).state = (host.get_sample_rate host.handle s).2 ∧
      ((self.withHost host).getTimeInfo s).value = (host.get_time_info host.handle s).1 ∧
      ((self.withHost host).getTimeInfo s).state = (host.get_time_info host.handle s).2 ∧
      ((self.withHost host).writeMidiEvent event s).state
        = host.write_midi_event host.handle event s ∧
      ((self.withHost host).uiParameterChanged index value s).state
        = host.ui_parameter_changed host.handle index value s ∧
      ((self.withHost host).uiMidiProgramChanged bank program s).state
        = host.ui_midi_program_changed host.handle bank program s ∧
      ((self.withHost host).uiCustomDataChanged key val s).state
        = host.ui_custom_data_changed host.handle key val s ∧
      ((self.withHost host).uiClosed s).state = host.ui_closed host.handle s) ∧
    (((rec.withHost (recordingHost handle bufferSize sampleRate timeInfo)).getBufferSize
          trace).state = trace ++ [.host (.get_buffer_size handle)] ∧
      ((rec.withHost (recordingHost handle bufferSize sampleRate timeInfo)).getBufferSize
          trace).value = bufferSize ∧
      ((rec.withHost (recordingHost handle bufferSize sampleRate timeInfo)).getSampleRate
          trace).state = trace ++ [.host (.get_sample_rate handle)] ∧
      ((rec.withHost (recordingHost handle bufferSize sampleRate timeInfo)).getSampleRate
          trace).value = sampleRate ∧
      ((rec.withHost (recordingHost handle bufferSize sampleRate timeInfo)).getTimeInfo
          trace).state = trace ++ [.host (.get_time_info handle)] ∧
      ((rec.withHost (recordingHost handle bufferSize sampleRate timeInfo)).getTimeInfo
          trace).value = timeInfo ∧
      ((rec.withHost (recordingHost handle bufferSize sampleRate timeInfo)).writeMidiEvent
          event trace).state = trace ++ [.host (.write_midi_event handle event)] ∧
      ((rec.withHost (recordingHost handle bufferSize sampleRate timeInfo)).uiParameterChanged
          index value trace).state
        = trace ++ [.host (.ui_parameter_changed handle index value)] ∧
      ((rec.withHost (recordingHost handle bufferSize sampleRate timeInfo)).uiMidiProgramChanged
          bank program trace).state
        = trace ++ [.host (.ui_midi_program_changed handle bank program)] ∧
      ((rec.withHost (recordingHost handle bufferSize sampleRate timeInfo)).uiCustomDataChanged
          key val trace).state
        = trace ++ [.host (.ui_custom_data_changed handle key val)] ∧
      ((rec.withHost (recordingHost handle bufferSize sampleRate timeInfo)).uiClosed
          trace).state = trace ++ [.host (.ui_closed handle)]) := by
  refine ⟨⟨rfl, rfl, rfl, rfl, rfl, rfl, rfl, rfl, rfl, rfl, rfl⟩,
    ⟨rfl, rfl, rfl, rfl, rfl, rfl, rfl, rfl, rfl, rfl, rfl⟩⟩

/-- C12: with a null host descriptor no host function is reached: in every
state, `getBufferSize` returns 0, `getSampleRate` returns 0.0, `getTimeInfo`
returns null, and all eight wrappers leave the state as it was. -/
theorem hostCalls_without_host {σ : Type} (self : PluginDescriptorClass σ) (s : σ)
    (event : Pointer) (index bank program : Nat) (value : CFloat)
    (key val : Option String) :
    (self.withoutHost.getBufferSize s).value = 0 ∧
      (self.withoutHost.getBufferSize s).state = s ∧
      (self.withoutHost.getSampleRate s).value = CDouble.zero ∧
      (self.withoutHost.getSampleRate s).state = s ∧
      (self.withoutHost.getTimeInfo s).value = 0 ∧
      (self.withoutHost.getTimeInfo s).state = s ∧
      (self.withoutHost.writeMidiEvent event s).state = s ∧
      (self.withoutHost.uiParameterChanged index value s).state = s ∧
      (self.withoutHost.uiMidiProgramChanged bank program s).state = s ∧
      (self.withoutHost.uiCustomDataChanged key val s).state = s ∧
      (self.withoutHost.uiClosed s).state = s :=
  ⟨rfl, rfl, rfl, rfl, rfl, rfl, rfl, rfl, rfl, rfl, rfl⟩

/-- C13, as stated, fails: on the empty trace no `process` call is running, yet
`writeMidiEvent(7)` of the recording plugin reaches the host, whose trace then
holds the call `write_midi_event(1, 7)`. -/
theorem writeMidiEvent_outside_process_forwards :
    insideProcess [] = false ∧
      (recordingPlugin.writeMidiEvent 7 []).state = [.host (.write_midi_event 1 7)] := by
  decide

/-- C13, amended: `writeMidiEvent(event)` forwards the event to the
`write_midi_event` of the host whenever the host descriptor is non-null, in
every state, inside a `process` call or not: the wrapper does not look at
whether a `process` call is running. -/
theorem writeMidiEvent_forwards_in_every_state {σ : Type}
    (self : PluginDescriptorClass σ) (host : HostDescriptor σ) (event : Pointer) (s : σ)
    (rec : PluginDescriptorClass (List TraceEntry)) (handle bufferSize timeInfo : Nat)
    (sampleRate : CDouble) (trace : List TraceEntry) :
    ((self.withHost host).writeMidiEvent event s).state
        = host.write_midi_event host.handle event s ∧
      ((rec.withHost (recordingHost handle bufferSize sampleRate timeInfo)).writeMidiEvent
          event trace).state = trace ++ [.host (.write_midi_event handle event)] :=
  ⟨rfl, rfl⟩

/-- C14: the static entry point `_process` is one call of the `process` of the
object behind the handle with the same five arguments, whatever they are, an
event count of 0 included: it gives back what that call gives back, and with
the recording `process` the trace gains exactly one entry into `process`, with
the five arguments unchanged, and its return. -/
theorem process_entry_point_dispatches {σ : Type} (handle : PluginDescriptorClass σ)
    (inBuffer outBuffer : Pointer) (frames midiEventCount : Nat) (midiEvents : Pointer)
    (s : σ) (host : Option (HostDescriptor (List TraceEntry))) (trace : List TraceEntry) :
    handle._process inBuffer outBuffer frames midiEventCount midiEvents s
        = handle.process inBuffer outBuffer frames midiEventCount midiEvents s ∧
      handle._process inBuffer outBuffer frames 0 midiEvents s
        = handle.process inBuffer outBuffer frames 0 midiEvents s ∧
      ((PluginDescriptorClass.new host recordingProcess)._process inBuffer outBuffer frames
          midiEventCount midiEvents trace).state
        = trace ++ [.processEnter inBuffer outBuffer frames midiEventCount midiEvents,
                    .processReturn] ∧
      ((PluginDescriptorClass.new host recordingProcess)._process inBuffer outBuffer frames
          0 midiEvents trace).state
        = trace ++ [.processEnter inBuffer outBuffer frames 0 midiEvents, .processReturn] :=
  ⟨rfl, rfl, rfl, rfl⟩

/-! ### Overloads of the event port writers -/

/-- C15: the struct-taking overloads are transparent. For every event port,
time, channel and control event `ctrl`, `writeControlEvent(time, channel, ctrl)`
gives the result and the port that
`writeControlEvent(time, channel, ctrl.type, ctrl.param, ctrl.value)` gives; for
every MIDI event `midi`, `writeMidiEvent(time, channel, midi)` gives the result
and the port that `writeMidiEvent(time, channel, midi.port, midi.data,
midi.size)` gives. -/
theorem eventPort_struct_overloads (p : CarlaEngineEventPort) (time channel : Nat)
    (ctrl : EngineControlEvent) (midi : EngineMidiEvent) :
    p.writeControlEventCtrl time channel ctrl
        = p.writeControlEvent time channel ctrl.type ctrl.param ctrl.value ∧
      p.writeMidiEventMidi time channel midi
        = p.writeMidiEvent time channel midi.port
            [midi.data0, midi.data1, midi.data2, midi.data3] midi.size :=
  ⟨rfl, rfl⟩

/-- C16: for every event port, time, data and size, the three-argument
`writeMidiEvent(time, data, size)` is
`writeMidiEvent(time, c, 0, data, size)` with
`c = MIDI_GET_CHANNEL_FROM_DATA(data)`; `c` depends on the first data byte only
and is within 0..15, and an event the call adds to the buffer has that channel
and the port 0. -/
theorem eventPort_writeMidiEvent_data (p : CarlaEngineEventPort) (time : Nat)
    (data : List Nat) (size : Nat) :
    p.writeMidiEventData time data size
        = p.writeMidiEvent time (MIDI_GET_CHANNEL_FROM_DATA data) 0 data size ∧
      MIDI_GET_CHANNEL_FROM_DATA data ≤ 15 ∧
      MIDI_GET_CHANNEL_FROM_DATA data = MIDI_GET_CHANNEL_FROM_DATA [data.getD 0 0] ∧
      ((p.writeMidiEventData time data size).2.fBuffer = p.fBuffer ∨
        ∃ e m, (p.writeMidiEventData time data size).2.fBuffer = p.fBuffer ++ [e] ∧
          e.channel = MIDI_GET_CHANNEL_FROM_DATA data ∧ e.channel ≤ 15 ∧
          e.data = .midi m ∧ m.port = 0) := by
  have hc : MIDI_GET_CHANNEL_FROM_DATA data ≤ 15 := by
    unfold MIDI_GET_CHANNEL_FROM_DATA
    simp only
    split
    · omega
    · omega
  refine ⟨rfl, hc, ?_, ?_⟩
  · simp [MIDI_GET_CHANNEL_FROM_DATA]
  · by_cases h : p.fBuffer.length < p.fCapacity
    · right
      simp [CarlaEngineEventPort.writeMidiEventData, CarlaEngineEventPort.writeMidiEvent, h, hc]
    · left
      simp [CarlaEngineEventPort.writeMidiEventData, CarlaEngineEventPort.writeMidiEvent, h]

/-! ### Adding a plugin -/

/-- C17: for every six-argument `addPlugin`, plugin type, filename, name, label
and extra pointer, the five-argument `addPlugin(ptype, filename, name, label,
extra)` returns what `addPlugin(BINARY_NATIVE, ptype, filename, name, label,
extra)` returns and leaves the engine in the same state; the six-argument
function is called exactly once, with `BINARY_NATIVE` and the five arguments
unchanged. -/
theorem addPlugin_native_overload {σ : Type} (addPlugin : AddPlugin σ)
    (ptype : PluginType) (filename name label : Option String) (extra : Pointer)
    (engine : σ) (result : Bool) (calls : List AddPluginCall) :
    addPluginNative addPlugin ptype filename name label extra engine
        = addPlugin .BINARY_NATIVE ptype filename name label extra engine ∧
      addPluginNative (recordingAddPlugin result) ptype filename name label extra calls
        = (result, calls ++ [{ btype := .BINARY_NATIVE, ptype := ptype,
                               filename := filename, name := name, label := label,
                               extra := extra }]) :=
  ⟨rfl, rfl⟩

/-! ### The quick comparison of time information -/

/-- C18, as stated, fails: two time infos that differ only in `usecs` (0 and 1)
and agree on `playing`, `frame`, `valid` and `bbt.beatsPerMinute`, the tempo
being a NaN, do not compare equal. -/
theorem timeInfo_eq_nan_tempo :
    (stoppedWithTempo CDouble.nan).playing
        = ({ stoppedWithTempo CDouble.nan with usecs := 1 } : EngineTimeInfo).playing ∧
      (stoppedWithTempo CDouble.nan).frame
        = ({ stoppedWithTempo CDouble.nan with usecs := 1 } : EngineTimeInfo).frame ∧
      (stoppedWithTempo CDouble.nan).valid
        = ({ stoppedWithTempo CDouble.nan with usecs := 1 } : EngineTimeInfo).valid ∧
      (stoppedWithTempo CDouble.nan).bbt
        = ({ stoppedWithTempo CDouble.nan with usecs := 1 } : EngineTimeInfo).bbt ∧
      (stoppedWithTempo CDouble.nan).eq { stoppedWithTempo CDouble.nan with usecs := 1 }
        = false := by
  decide

/-- C18, amended: `a == b` is true exactly when `a` and `b` have the same
`playing`, `frame` and `valid` and their `bbt.beatsPerMinute` compare equal as
doubles; a value compared with one that differs from it only in `usecs`, `bar`,
`beat`, `tick`, `barStartTick`, `beatsPerBar`, `beatType` or `ticksPerBeat`
compares equal exactly when its `bbt.beatsPerMinute` is not a NaN. -/
theorem timeInfo_eq_quick (a b : EngineTimeInfo) (usecs : Nat)
    (bbt : EngineTimeInfoBBT) :
    (a.eq b = true ↔
        a.playing = b.playing ∧ a.frame = b.frame ∧ a.valid = b.valid ∧
          b.bbt.beatsPerMinute.eq a.bbt.beatsPerMinute = true) ∧
      a.eq { a with usecs := usecs, bbt := bbt.withTempoOf a.bbt }
        = !a.bbt.beatsPerMinute.isNaN := by
  constructor
  · simp only [EngineTimeInfo.eq, CDouble.ne]
    constructor
    · intro h
      split at h
      · exact absurd h (by simp)
      · split at h
        · exact absurd h (by simp)
        · split at h
          · exact absurd h (by simp)
          · simp_all
    · rintro ⟨h1, h2, h3, h4⟩
      simp [h1, h2, h3, h4]
  · simp [EngineTimeInfo.eq, CDouble.ne, EngineTimeInfoBBT.withTempoOf, CDouble.eq_self]

/-! ### Fresh events and plugin information -/

/-- C19: a freshly constructed `EngineEvent`, and a cleared one, has type Null,
time 0 and channel 0; for every block size `frames ≥ 1` its time is therefore
within `0 ≤ time < frames`, and its channel is within 0..15. -/
theorem engineEvent_fresh_invariants (e : EngineEvent) (frames : Nat)
    (hframes : 1 ≤ frames) :
    ((EngineEvent.new e).type = .kEngineEventTypeNull ∧ (EngineEvent.new e).time = 0 ∧
        (EngineEvent.new e).channel = 0) ∧
      (e.clear.type = .kEngineEventTypeNull ∧ e.clear.time = 0 ∧ e.clear.channel = 0) ∧
      (0 ≤ (EngineEvent.new e).time ∧ (EngineEvent.new e).time < frames ∧
        (EngineEvent.new e).channel ≤ 15) ∧
      (0 ≤ e.clear.time ∧ e.clear.time < frames ∧ e.clear.channel ≤ 15) := by
  simp [EngineEvent.new, EngineEvent.clear]
  omega

/-- Witness for C19: a note-on event at time 200 on channel 9, cleared, in a
block of 256 frames. -/
theorem engineEvent_fresh_invariants_witness :
    1 ≤ 256 ∧
      (EngineEvent.new
        { type := .kEngineEventTypeMidi, time := 200, channel := 9,
          data := .midi { port := 0, data0 := 0x90, data1 := 60, data2 := 100,
                          data3 := 0, size := 3 } }).time < 256 :=
  ⟨by decide,
    (engineEvent_fresh_invariants
      { type := .kEngineEventTypeMidi, time := 200, channel := 9,
        data := .midi { port := 0, data0 := 0x90, data1 := 60, data2 := 100,
                        data3 := 0, size := 3 } } 256 (by decide)).2.2.1.2.1⟩

/-- C20: a default-constructed `CarlaPluginInfo` has `patchbayClientId` 0 (the
value documented as invalid or unused), type `PLUGIN_NONE`, category
`PLUGIN_CATEGORY_NONE`, hints and both option masks 0, `uniqueId` 0 and every
string member null. -/
theorem carlaPluginInfo_default :
    CarlaPluginInfo.new.patchbayClientId = 0 ∧
      CarlaPluginInfo.new.type = .PLUGIN_NONE ∧
      CarlaPluginInfo.new.category = .PLUGIN_CATEGORY_NONE ∧
      CarlaPluginInfo.new.hints = 0 ∧
      CarlaPluginInfo.new.optionsAvailable = 0 ∧
      CarlaPluginInfo.new.optionsEnabled = 0 ∧
      CarlaPluginInfo.new.uniqueId = 0 ∧
      CarlaPluginInfo.new.filename = none ∧
      CarlaPluginInfo.new.name = none ∧
      CarlaPluginInfo.new.label = none ∧
      CarlaPluginInfo.new.maker = none ∧
      CarlaPluginInfo.new.copyright = none ∧
      CarlaPluginInfo.new.iconName = none :=
  ⟨rfl, rfl, rfl, rfl, rfl, rfl, rfl, rfl, rfl, rfl, rfl, rfl, rfl⟩

/-! ### Writes into a full event buffer -/

/-- C23: a write into an event port returns whether the buffer was below its
capacity. When the buffer already holds its capacity of events,
`writeControlEvent` and `writeMidiEvent` return false and leave the port, its
events and its count as they were; when the buffer is below capacity they
return true and append exactly one event. The capacity of a newly built port is
512. -/
theorem eventPort_write_at_capacity (p : CarlaEngineEventPort) (time channel param : Nat)
    (type : EngineControlEventType) (value : CFloat) (port size : Nat) (data : List Nat)
    (isInput : Bool) :
    ((p.writeControlEvent time channel type param value).1
        = decide (p.fBuffer.length < p.fCapacity) ∧
      (p.writeMidiEvent time channel port data size).1
        = decide (p.fBuffer.length < p.fCapacity)) ∧
    (p.fCapacity ≤ p.fBuffer.length →
      p.writeControlEvent time channel type param value = (false, p) ∧
        p.writeMidiEvent time channel port data size = (false, p)) ∧
    (p.fBuffer.length < p.fCapacity →
      ((p.writeControlEvent time channel type param value).1 = true ∧
        (∃ e, (p.writeControlEvent time channel type param value).2.fBuffer
            = p.fBuffer ++ [e]) ∧
        (p.writeControlEvent time channel type param value).2.getEventCount
          = p.getEventCount + 1) ∧
      ((p.writeMidiEvent time channel port data size).1 = true ∧
        (∃ e, (p.writeMidiEvent time channel port data size).2.fBuffer
            = p.fBuffer ++ [e]) ∧
        (p.writeMidiEvent time channel port data size).2.getEventCount
          = p.getEventCount + 1)) ∧
    (CarlaEngineEventPort.new isInput).fCapacity = 512 := by
  refine ⟨?_, ?_, ?_, rfl⟩
  · by_cases h : p.fBuffer.length < p.fCapacity <;>
      simp [CarlaEngineEventPort.writeControlEvent, CarlaEngineEventPort.writeMidiEvent, h]
  · intro h
    have h2 : ¬ p.fBuffer.length < p.fCapacity := by omega
    simp [CarlaEngineEventPort.writeControlEvent, CarlaEngineEventPort.writeMidiEvent, h2]
  · intro h
    simp [CarlaEngineEventPort.writeControlEvent, CarlaEngineEventPort.writeMidiEvent,
      CarlaEngineEventPort.getEventCount, h]

/-! ### Static entry points of the native plugin class -/

/-- C24: each of the 17 static entry points of `PluginDescriptorClass` is one
call of the like-named member function of the object behind the handle, with
the arguments unchanged and in the same order, and gives back what that member
function gives back. On the plugin that records which member function was
reached, each entry point adds exactly the like-named call with the same
arguments, so that none is wired to another member function. -/
theorem entry_points_dispatch {σ : Type} (handle : PluginDescriptorClass σ) (s : σ)
    (index bank program frames midiEventCount : Nat) (value : CFloat)
    (key val : Option String) (isShown : Bool) (inBuffer outBuffer midiEvents : Pointer)
    (calls : List MethodCall) :
    (handle._get_parameter_count s = handle.getParameterCount s ∧
      handle._get_parameter_info index s = handle.getParameterInfo index s ∧
      handle._get_parameter_value index s = handle.getParameterValue index s ∧
      handle._get_parameter_text index s = handle.getParameterText index s ∧
      handle._get_midi_program_count s = handle.getMidiProgramCount s ∧
      handle._get_midi_program_info index s = handle.getMidiProgramInfo index s ∧
      handle._set_parameter_value index value s = handle.setParameterValue index value s ∧
      handle._set_midi_program bank program s = handle.setMidiProgram bank program s ∧
      handle._set_custom_data key val s = handle.setCustomData key val s ∧
      handle._ui_show isShown s = handle.uiShow isShown s ∧
      handle._ui_idle s = handle.uiIdle s ∧
      handle._ui_set_parameter_value index value s = handle.uiSetParameterValue index value s ∧
      handle._ui_set_midi_program bank program s = handle.uiSetMidiProgram bank program s ∧
      handle._ui_set_custom_data key val s = handle.uiSetCustomData key val s ∧
      handle._activate s = handle.activate s ∧
      handle._deactivate s = handle.deactivate s ∧
      handle._process inBuffer outBuffer frames midiEventCount midiEvents s
          = handle.process inBuffer outBuffer frames midiEventCount midiEvents s) ∧
    ((tracingPlugin._get_parameter_count calls).state = calls ++ [.getParameterCount] ∧
      (tracingPlugin._get_parameter_info index calls).state = calls ++ [(.getParameterInfo index)] ∧
      (tracingPlugin._get_parameter_value index calls).state
          = calls ++ [(.getParameterValue index)] ∧
      (tracingPlugin._get_parameter_text index calls).state = calls ++ [(.getParameterText index)] ∧
      (tracingPlugin._get_midi_program_count calls).state = calls ++ [.getMidiProgramCount] ∧
      (tracingPlugin._get_midi_program_info index calls).state
          = calls ++ [(.getMidiProgramInfo index)] ∧
      (tracingPlugin._set_parameter_value index value calls).state
          = calls ++ [(.setParameterValue index value)] ∧
      (tracingPlugin._set_midi_program bank program calls).state
          = calls ++ [(.setMidiProgram bank program)] ∧
      (tracingPlugin._set_custom_data key val calls).state = calls ++ [(.setCustomData key val)] ∧
      (tracingPlugin._ui_show isShown calls).state = calls ++ [(.uiShow isShown)] ∧
      (tracingPlugin._ui_idle calls).state = calls ++ [.uiIdle] ∧
      (tracingPlugin._ui_set_parameter_value index value calls).state
          = calls ++ [(.uiSetParameterValue index value)] ∧
      (tracingPlugin._ui_set_midi_program bank program calls).state
          = calls ++ [(.uiSetMidiProgram bank program)] ∧
      (tracingPlugin._ui_set_custom_data key val calls).state
          = calls ++ [(.uiSetCustomData key val)] ∧
      (tracingPlugin._activate calls).state = calls ++ [.activate] ∧
      (tracingPlugin._deactivate calls).state = calls ++ [.deactivate] ∧
      (tracingPlugin._process inBuffer outBuffer frames midiEventCount midiEvents calls).state
          = calls ++ [(.process inBuffer outBuffer frames midiEventCount midiEvents)]) :=
  ⟨⟨rfl, rfl, rfl, rfl, rfl, rfl, rfl, rfl, rfl, rfl, rfl, rfl, rfl, rfl, rfl, rfl, rfl⟩,
    ⟨rfl, rfl, rfl, rfl, rfl, rfl, rfl, rfl, rfl, rfl, rfl, rfl, rfl, rfl, rfl, rfl, rfl⟩⟩

/-! ### A plugin that overrides nothing but `process` -/

/-- C25: a plugin that overrides none of the introspection, state and UI member
functions reports `getParameterCount() = 0` and `getMidiProgramCount() = 0`;
for every index `getParameterInfo`, `getParameterText` and `getMidiProgramInfo`
return null and `getParameterValue` returns 0.0; and every one of these, like
`setParameterValue`, `setMidiProgram`, `setCustomData`, `uiShow`, `uiIdle`,
`uiSetParameterValue`, `uiSetMidiProgram`, `uiSetCustomData`, `activate` and
`deactivate`, leaves the state as it was. -/
theorem plugin_defaults {σ : Type} (host : Option (HostDescriptor σ))
    (process : Pointer → Pointer → Nat → Nat → Pointer → σ → CallResult σ Unit) (s : σ)
    (index bank program : Nat) (value : CFloat) (key val : Option String)
    (isShown : Bool) :
    (((PluginDescriptorClass.new host process).getParameterCount s).value = 0 ∧
      ((PluginDescriptorClass.new host process).getMidiProgramCount s).value = 0 ∧
      ((PluginDescriptorClass.new host process).getParameterInfo index s).value = 0 ∧
      ((PluginDescriptorClass.new host process).getParameterText index s).value = none ∧
      ((PluginDescriptorClass.new host process).getMidiProgramInfo index s).value = 0 ∧
      ((PluginDescriptorClass.new host process).getParameterValue index s).value
        = CFloat.zero) ∧
    (((PluginDescriptorClass.new host process).getParameterCount s).state = s ∧
      ((PluginDescriptorClass.new host process).getMidiProgramCount s).state = s ∧
      ((PluginDescriptorClass.new host process).getParameterInfo index s).state = s ∧
      ((PluginDescriptorClass.new host process).getParameterText index s).state = s ∧
      ((PluginDescriptorClass.new host process).getMidiProgramInfo index s).state = s ∧
      ((PluginDescriptorClass.new host process).getParameterValue index s).state = s) ∧
    (((PluginDescriptorClass.new host process).setParameterValue index value s).state = s ∧
      ((PluginDescriptorClass.new host process).setMidiProgram bank program s).state = s ∧
      ((PluginDescriptorClass.new host process).setCustomData key val s).state = s ∧
      ((PluginDescriptorClass.new host process).uiShow isShown s).state = s ∧
      ((PluginDescriptorClass.new host process).uiIdle s).state = s ∧
      ((PluginDescriptorClass.new host process).uiSetParameterValue index value s).state
        = s ∧
      ((PluginDescriptorClass.new host process).uiSetMidiProgram bank program s).state = s ∧
      ((PluginDescriptorClass.new host process).uiSetCustomData key val s).state = s ∧
      ((PluginDescriptorClass.new host process).activate s).state = s ∧
      ((PluginDescriptorClass.new host process).deactivate s).state = s) :=
  ⟨⟨rfl, rfl, rfl, rfl, rfl, rfl⟩, ⟨rfl, rfl, rfl, rfl, rfl, rfl⟩,
    ⟨rfl, rfl, rfl, rfl, rfl, rfl, rfl, rfl, rfl, rfl⟩⟩

/-- C26: for a plugin that keeps the `getParameterCount()` and
`getMidiProgramCount()` of `PluginDescriptorClass` (both 0), the one assertion
made by `getParameterInfo`, `getParameterValue`, `getParameterText`,
`setParameterValue` and `uiSetParameterValue`, `index < getParameterCount()`,
and the one made by `getMidiProgramInfo`, `index < getMidiProgramCount()`, is
false for every index; no index makes it true. -/
theorem plugin_default_assertions_fail {σ : Type} (host : Option (HostDescriptor σ))
    (process : Pointer → Pointer → Nat → Nat → Pointer → σ → CallResult σ Unit) (s : σ)
    (index : Nat) (value : CFloat) :
    ((PluginDescriptorClass.new host process).getParameterInfo index s).asserts = [false] ∧
      ((PluginDescriptorClass.new host process).getParameterValue index s).asserts
        = [false] ∧
      ((PluginDescriptorClass.new host process).getParameterText index s).asserts
        = [false] ∧
      ((PluginDescriptorClass.new host process).setParameterValue index value s).asserts
        = [false] ∧
      ((PluginDescriptorClass.new host process).uiSetParameterValue index value s).asserts
        = [false] ∧
      ((PluginDescriptorClass.new host process).getMidiProgramInfo index s).asserts
        = [false] ∧
      decide (index < ((PluginDescriptorClass.new host process).getParameterCount s).value)
        = false ∧
      decide (index < ((PluginDescriptorClass.new host process).getMidiProgramCount s).value)
        = false := by
  simp [PluginDescriptorClass.new, PluginDescriptorClass.Base.getParameterInfo,
    PluginDescriptorClass.Base.getParameterValue, PluginDescriptorClass.Base.getParameterText,
    PluginDescriptorClass.Base.setParameterValue,
    PluginDescriptorClass.Base.uiSetParameterValue,
    PluginDescriptorClass.Base.getMidiProgramInfo,
    PluginDescriptorClass.Base.getParameterCount,
    PluginDescriptorClass.Base.getMidiProgramCount, CARLA_ASSERT]

/-! ### Effect of the `clear()` member functions -/

/-- C27: `EngineEvent::clear()` sets the type to Null, the time to 0 and the
channel to 0 and leaves the payload union unchanged; `EngineControlEvent::clear()`
sets type Null, param 0 and value 0.0; `EngineMidiEvent::clear()` sets the port,
the four data bytes and the size to 0; clearing twice equals clearing once. -/
theorem clear_effects (e : EngineEvent) (c : EngineControlEvent) (m : EngineMidiEvent) :
    (e.clear.type = .kEngineEventTypeNull ∧ e.clear.time = 0 ∧ e.clear.channel = 0 ∧
        e.clear.data = e.data) ∧
      (c.clear.type = .kEngineControlEventTypeNull ∧ c.clear.param = 0 ∧
        c.clear.value = CFloat.zero) ∧
      (m.clear.port = 0 ∧ m.clear.data0 = 0 ∧ m.clear.data1 = 0 ∧ m.clear.data2 = 0 ∧
        m.clear.data3 = 0 ∧ m.clear.size = 0) ∧
      (e.clear.clear = e.clear ∧ c.clear.clear = c.clear ∧ m.clear.clear = m.clear) :=
  ⟨⟨rfl, rfl, rfl, rfl⟩, ⟨rfl, rfl, rfl⟩, ⟨rfl, rfl, rfl, rfl, rfl, rfl⟩, ⟨rfl, rfl, rfl⟩⟩

/-- C28: `EngineTimeInfo::clear()` sets `playing = false`, `frame = 0`,
`usecs = 0` and `valid = 0`, so that the `ValidBBT` bit is clear, and leaves
`bbt` unchanged; a freshly constructed `EngineTimeInfo` is in that cleared
state, whatever its members held before, with every BBT field zero. -/
theorem timeInfo_clear_effects (t : EngineTimeInfo) (playing0 : Bool)
    (frame0 usecs0 valid0 : Nat) :
    (t.clear.playing = false ∧ t.clear.frame = 0 ∧ t.clear.usecs = 0 ∧ t.clear.valid = 0 ∧
        t.clear.hasValidBBT = false ∧ t.clear.bbt = t.bbt) ∧
      ((EngineTimeInfo.new playing0 frame0 usecs0 valid0).playing = false ∧
        (EngineTimeInfo.new playing0 frame0 usecs0 valid0).frame = 0 ∧
        (EngineTimeInfo.new playing0 frame0 usecs0 valid0).usecs = 0 ∧
        (EngineTimeInfo.new playing0 frame0 usecs0 valid0).valid = 0 ∧
        (EngineTimeInfo.new playing0 frame0 usecs0 valid0).hasValidBBT = false) ∧
      ((EngineTimeInfo.new playing0 frame0 usecs0 valid0).bbt.bar = 0 ∧
        (EngineTimeInfo.new playing0 frame0 usecs0 valid0).bbt.beat = 0 ∧
        (EngineTimeInfo.new playing0 frame0 usecs0 valid0).bbt.tick = 0 ∧
        (EngineTimeInfo.new playing0 frame0 usecs0 valid0).bbt.barStartTick = CDouble.zero ∧
        (EngineTimeInfo.new playing0 frame0 usecs0 valid0).bbt.beatsPerBar = CFloat.zero ∧
        (EngineTimeInfo.new playing0 frame0 usecs0 valid0).bbt.beatType = CFloat.zero ∧
        (EngineTimeInfo.new playing0 frame0 usecs0 valid0).bbt.ticksPerBeat = CDouble.zero ∧
        (EngineTimeInfo.new playing0 frame0 usecs0 valid0).bbt.beatsPerMinute
          = CDouble.zero) :=
  ⟨⟨rfl, rfl, rfl, rfl,
      by simp [EngineTimeInfo.hasValidBBT, EngineTimeInfo.clear, EngineTimeInfo.ValidBBT],
      rfl⟩,
    ⟨rfl, rfl, rfl, rfl,
      by simp [EngineTimeInfo.hasValidBBT, EngineTimeInfo.new, EngineTimeInfo.clear,
        EngineTimeInfo.ValidBBT]⟩,
    ⟨rfl, rfl, rfl, rfl, rfl, rfl, rfl, rfl⟩⟩

/-! ### The comparison of time information as a relation -/

/-- C29: `EngineTimeInfo::operator==` is symmetric and transitive on all time
infos and reflexive on every time info whose tempo is compared exactly, that is
whose `bbt.beatsPerMinute` is not a NaN (`a == a` is true exactly then), so it
is an equivalence relation over those; `operator!=` is its exact negation:
`(a != b) = not (a == b)` for all `a` and `b`. -/
theorem timeInfo_eq_equivalence (a b c : EngineTimeInfo) :
    (a.bbt.beatsPerMinute.isNaN = false → a.eq a = true) ∧
      a.eq a = !a.bbt.beatsPerMinute.isNaN ∧
      a.eq b = b.eq a ∧
      (a.eq b = true → b.eq c = true → a.eq c = true) ∧
      a.ne b = !a.eq b := by
  have hrefl : a.eq a = !a.bbt.beatsPerMinute.isNaN := by
    simp [EngineTimeInfo.eq, CDouble.ne, CDouble.eq_self]
  refine ⟨?_, hrefl, ?_, ?_, rfl⟩
  · intro h
    rw [hrefl, h]
    rfl
  · rw [Bool.eq_iff_iff, EngineTimeInfo.eq_iff_fields, EngineTimeInfo.eq_iff_fields,
      CDouble.eq_symm a.bbt.beatsPerMinute b.bbt.beatsPerMinute]
    constructor
    · rintro ⟨h1, h2, h3, h4⟩
      exact ⟨h1.symm, h2.symm, h3.symm, h4⟩
    · rintro ⟨h1, h2, h3, h4⟩
      exact ⟨h1.symm, h2.symm, h3.symm, h4⟩
  · intro hab hbc
    rw [EngineTimeInfo.eq_iff_fields] at hab hbc ⊢
    obtain ⟨p1, f1, v1, t1⟩ := hab
    obtain ⟨p2, f2, v2, t2⟩ := hbc
    exact ⟨p1.trans p2, f1.trans f2, v1.trans v2, CDouble.eq_trans _ _ _ t2 t1⟩

/-! ### Unique plugin names -/

/-- C21: for every base name and every list of plugin names in use,
`getUniquePluginName(base)` returns `base` itself when `base` is not in use, and
otherwise `base` followed by ` (N)` where `N` is the smallest number `≥ 2` whose
name is not in use (every smaller one from 2 on is in use); the returned name is
never one of the names in use. Names are compared byte for byte: with `gain` in
use `Gain` is free, and with `Gain` and `Gain (2)` in use the result is
`Gain (3)`. -/
theorem getUniquePluginName_policy (names : List String) (base : String) :
    (base ∉ names → getUniquePluginName names base = base) ∧
      (base ∈ names →
        ∃ n, 2 ≤ n ∧ getUniquePluginName names base = base ++ " (" ++ Nat.repr n ++ ")" ∧
          ∀ m, 2 ≤ m → m < n → base ++ " (" ++ Nat.repr m ++ ")" ∈ names) ∧
      getUniquePluginName names base ∉ names ∧
      getUniquePluginName ["gain"] "Gain" = "Gain" ∧
      getUniquePluginName ["Gain", "Gain (2)", "gain (3)"] "Gain" = "Gain (3)" := by
  obtain ⟨h1, h2, h3, h4⟩ := firstUnusedNumber_spec names base names.length 2
  have hfree : uniqueNameCandidate base (firstUnusedNumber names base names.length 2)
      ∉ names := by
    by_cases hlt : firstUnusedNumber names base names.length 2 < 2 + names.length
    · exact h4 hlt
    · have heq : firstUnusedNumber names base names.length 2 = 2 + names.length := by omega
      rw [heq]
      apply uniqueNameCandidate_pigeonhole
      intro m hm1 hm2
      exact h3 m hm1 (by omega)
  refine ⟨?_, ?_, ?_, by decide, by decide⟩
  · intro h
    simp [getUniquePluginName, h]
  · intro h
    refine ⟨firstUnusedNumber names base names.length 2, h1, ?_, ?_⟩
    · simp [getUniquePluginName, h, uniqueNameCandidate]
    · intro m hm1 hm2
      exact h3 m hm1 hm2
  · by_cases h : base ∈ names
    · have hname : getUniquePluginName names base
          = uniqueNameCandidate base (firstUnusedNumber names base names.length 2) := by
        simp [getUniquePluginName, h]
      rw [hname]
      exact hfree
    · have hname : getUniquePluginName names base = base := by
        simp [getUniquePluginName, h]
      rw [hname]
      exact h

/-! ### Musical position -/

/-- The conditions on the settings cannot be dropped, each one alone failing a
bound at frame 72000 or 480000: with 3.5 beats per bar the beat is 4; with a
tempo of -120, or a sample rate of -48000, the bar is -4; with 0 ticks per beat
the tick is 0, not below `ticks_per_beat`; with -4 beats per bar the bar is -4. -/
theorem bbt_settings_conditions_needed :
    ¬ ((bbtBeat ⟨7 / 2, 960, 120, 48000⟩ 72000 : ℚ)
        ≤ (⟨7 / 2, 960, 120, 48000⟩ : BBTSettings).beatsPerBar) ∧
      ¬ (1 ≤ bbtBar ⟨4, 960, -120, 48000⟩ 480000) ∧
      ¬ (1 ≤ bbtBar ⟨4, 960, 120, -48000⟩ 480000) ∧
      ¬ ((bbtTick ⟨4, 0, 120, 48000⟩ 480000 : ℚ)
        < (⟨4, 0, 120, 48000⟩ : BBTSettings).ticksPerBeat) ∧
      ¬ (1 ≤ bbtBar ⟨-4, 960, 120, 48000⟩ 480000) := by
  refine ⟨?_, ?_, ?_, ?_, ?_⟩
  · norm_num [bbtBeat, beatsTotal, modBeats]
  · norm_num [bbtBar, beatsTotal]
  · norm_num [bbtBar, beatsTotal]
  · norm_num [bbtTick, beatsTotal]
  · norm_num [bbtBar, beatsTotal]

end CarlaBackend
